import Mathlib

/-!
Shallow embedding of the core of project_analyzer.py (repository Zengent):
record model, the five analyzers (Python syntactic, PySpark, SQL, Shell,
Batch, Java lexical), the aggregator and the graph builders, together with
theorems settling the frozen claims about the specification.

Conventions of the embedding:
* Python strings are Lean String values; scanning works on List Char.
* Python regular expressions are translated pattern by pattern into
  dedicated scanners that reproduce the leftmost, non-overlapping
  semantics of re.finditer and re.search, including the greedy or lazy
  behaviour and the backtracking of each concrete pattern of the source.
* Python list(set(...)) has a hash-dependent iteration order; it is
  modelled by an explicit parameter ord : List String -> List String,
  constrained where needed by SetListOrder below.  List.dedup is one
  admissible instantiation.
* ast.parse is an external library; a Python file therefore carries its
  parse outcome as an Option over a small Python syntax-tree type, and the
  visitor of class PythonAnalyzer is embedded over that tree.
-/

namespace ZA

/-- ASCII word character, the class backslash-w of Python re. -/
def isWordChar (c : Char) : Bool :=
  (('a' ≤ c) && (c ≤ 'z')) || (('A' ≤ c) && (c ≤ 'Z')) ||
  (('0' ≤ c) && (c ≤ '9')) || (c == '_')

/-- Whitespace, the class backslash-s of Python re and str.strip. -/
def isPySpace (c : Char) : Bool :=
  (c == ' ') || (c == '\t') || (c == '\n') || (c == '\x0d') ||
  (c == '\x0b') || (c == '\x0c')

/-- str.upper of Python, restricted to ASCII as used by the source. -/
def pyUpper (s : String) : String := String.mk (s.data.map Char.toUpper)

/-- str.lower of Python, restricted to ASCII as used by the source. -/
def pyLower (s : String) : String := String.mk (s.data.map Char.toLower)

/-- Does the second list start with the first one (case-sensitive)? -/
def isPre : List Char → List Char → Bool
  | [], _ => true
  | _ :: _, [] => false
  | n :: ns, h :: hs => (n == h) && isPre ns hs

/-- Does the second list start with the first one, ASCII case-insensitive? -/
def isPreCI : List Char → List Char → Bool
  | [], _ => true
  | _ :: _, [] => false
  | n :: ns, h :: hs => (n.toUpper == h.toUpper) && isPreCI ns hs

/-- Substring containment on char lists: needle occurs somewhere in hay. -/
def containsSub (needle : List Char) : List Char → Bool
  | [] => isPre needle []
  | h :: t => isPre needle (h :: t) || containsSub needle t

/-- The Python test needle in hay on strings. -/
def strContains (hay needle : String) : Bool := containsSub needle.data hay.data

/-- Length of the maximal whitespace run at the front. -/
def wsRun : List Char → Nat
  | [] => 0
  | c :: cs => if isPySpace c then wsRun cs + 1 else 0

/-- Length of the maximal word-character run at the front. -/
def wordRun : List Char → Nat
  | [] => 0
  | c :: cs => if isWordChar c then wordRun cs + 1 else 0

/-- Number of newline characters in a list. -/
def countNl (l : List Char) : Nat := (l.filter (fun c => c == '\n')).length

/-- Join char lists with a separator character. -/
def joinWith (sep : Char) : List (List Char) → List Char
  | [] => []
  | [x] => x
  | x :: xs => x ++ sep :: joinWith sep xs

/-- Python str.strip: remove leading and trailing whitespace. -/
def pyStrip (s : String) : String :=
  let l := s.data.dropWhile isPySpace
  String.mk ((l.reverse.dropWhile isPySpace).reverse)

/-- Split a char list at every occurrence of a separator character. -/
def splitOnChar (sep : Char) : List Char → List (List Char)
  | [] => [[]]
  | c :: cs =>
    match splitOnChar sep cs with
    | [] => [[]]
    | seg :: rest => if c == sep then [] :: seg :: rest else (c :: seg) :: rest

/-- Python str.split on a single newline separator. -/
def splitLines (s : String) : List String :=
  (splitOnChar '\n' s.data).map String.mk

/-- os.path.basename for POSIX paths: the part after the last slash. -/
def basename (s : String) : String :=
  match (splitOnChar '/' s.data).getLast? with
  | some b => String.mk b
  | none => s

/--
Generic re.finditer loop.  The matcher m receives the character just
before the current position (for word boundaries and MULTILINE anchors)
and the remaining suffix; it returns the captured value and the number of
characters the match consumes (always at least one for every pattern of
the source).  Results carry the start index and the 1-based line number
of the match start, computed as the source does by counting newlines
before match.start().
-/
def finditerAux (m : Option Char → List Char → Option (α × Nat)) :
    Nat → Option Char → Nat → Nat → List Char → List (α × Nat × Nat)
  | 0, _, _, _, _ => []
  | _ + 1, _, _, _, [] => []
  | fuel + 1, prev, pos, nl, c :: rest =>
    match m prev (c :: rest) with
    | some (a, k) =>
      let k := max k 1
      let consumed := (c :: rest).take k
      (a, pos, nl + 1) ::
        finditerAux m fuel consumed.getLast? (pos + k) (nl + countNl consumed)
          ((c :: rest).drop k)
    | none =>
      finditerAux m fuel (some c) (pos + 1) (nl + (if c == '\n' then 1 else 0)) rest

/-- Run a matcher over a whole string, re.finditer style. -/
def finditer (m : Option Char → List Char → Option (α × Nat)) (s : String) :
    List (α × Nat × Nat) :=
  finditerAux m (s.data.length + 1) none 0 0 s.data

/-- re.search: the first match only. -/
def research (m : Option Char → List Char → Option (α × Nat)) (s : String) :
    Option α :=
  (finditer m s).head?.map (fun r => r.1)

/-! ## Record model (the dataclasses of the source) -/

/-- Dataclass ClassInfo. -/
structure ClassInfo where
  name : String
  file_path : String
  line_number : Nat
  methods : List String := []
  base_classes : List String := []
  attributes : List String := []
  deriving DecidableEq, Repr

/-- Dataclass FunctionInfo. -/
structure FunctionInfo where
  name : String
  file_path : String
  line_number : Nat
  calls : List String := []
  parameters : List String := []
  returns : Option String := none
  is_method : Bool := false
  class_name : Option String := none
  deriving DecidableEq, Repr

/-- Dataclass DataFlowNode. -/
structure DataFlowNode where
  name : String
  node_type : String
  file_path : String
  line_number : Nat
  inputs : List String := []
  outputs : List String := []
  transformations : List String := []
  deriving DecidableEq, Repr

/-- Dataclass SQLTable; the alias field is renamed since alias is a Lean keyword. -/
structure SQLTable where
  name : String
  alias_ : Option String := none
  columns : List String := []
  source_type : String := "table"
  deriving DecidableEq, Repr

/-- Dataclass SQLDataFlow; a join dict carries the table and alias keys. -/
structure SQLDataFlow where
  source_tables : List SQLTable := []
  target_table : Option String := none
  operation : String := "SELECT"
  joins : List (String × Option String) := []
  transformations : List String := []
  deriving DecidableEq, Repr

/-!
## SQLAnalyzer

Scanners for the concrete regular expressions of class SQLAnalyzer.
-/

namespace SQLAnalyzer

/--
The tail of the FROM and JOIN patterns after the table name, the part
(backslash-s+(?:AS backslash-s+)?(backslash-w+))? of the source patterns:
an optional alias with an optional AS keyword.  Returns the number of
extra characters consumed and the alias capture.  The AS branch is tried
first and falls back to a plain word, as the regex engine does.
-/
def aliasTail (s : List Char) : Nat × Option String :=
  let w := wsRun s
  if w == 0 then (0, none)
  else
    let s2 := s.drop w
    let asBranch : Option (Nat × String) :=
      if isPreCI [ 'A', 'S'] s2 then
        let s3 := s2.drop 2
        let w2 := wsRun s3
        if w2 == 0 then none
        else
          let s4 := s3.drop w2
          let r := wordRun s4
          if r == 0 then none else some (2 + w2 + r, String.mk (s4.take r))
      else none
    match asBranch with
    | some (k, al) => (w + k, some al)
    | none =>
      let r := wordRun s2
      if r == 0 then (0, none) else (w + r, some (String.mk (s2.take r)))

/-- Matcher for the FROM clause pattern of _parse_select (IGNORECASE). -/
def fromMatcher (_ : Option Char) (s : List Char) :
    Option ((String × Option String) × Nat) :=
  if isPreCI [ 'F', 'R', 'O', 'M'] s then
    let s1 := s.drop 4
    let w := wsRun s1
    if w == 0 then none
    else
      let s2 := s1.drop w
      let r := wordRun s2
      if r == 0 then none
      else
        let (k2, al) := aliasTail (s2.drop r)
        some ((String.mk (s2.take r), al), 4 + w + r + k2)
  else none

/--
Core of the JOIN pattern after an optional join-kind keyword: the literal
JOIN, whitespace, a table name and an optional alias (IGNORECASE).
-/
def joinCore (s : List Char) : Option ((String × Option String) × Nat) :=
  if isPreCI [ 'J', 'O', 'I', 'N'] s then
    let s1 := s.drop 4
    let w := wsRun s1
    if w == 0 then none
    else
      let s2 := s1.drop w
      let r := wordRun s2
      if r == 0 then none
      else
        let (k2, al) := aliasTail (s2.drop r)
        some ((String.mk (s2.take r), al), 4 + w + r + k2)
  else none

/-- The optional (?:LEFT|RIGHT|INNER|OUTER|CROSS) head of the JOIN pattern. -/
def joinKinds : List (List Char) :=
  [ [ 'L', 'E', 'F', 'T'], [ 'R', 'I', 'G', 'H', 'T'],
    [ 'I', 'N', 'N', 'E', 'R'], [ 'O', 'U', 'T', 'E', 'R'],
    [ 'C', 'R', 'O', 'S', 'S'] ]

/--
Matcher for the JOIN clause pattern of _parse_select: an optional join
kind, any whitespace, then the JOIN core.  When a join-kind keyword
matches but the rest fails, the engine backtracks to the empty
alternative at the same start, which is reproduced here.
-/
def joinMatcher (_ : Option Char) (s : List Char) :
    Option ((String × Option String) × Nat) :=
  let withKind : Option ((String × Option String) × Nat) :=
    match joinKinds.find? (fun k => isPreCI k s) with
    | some k =>
      let s1 := s.drop k.length
      let w := wsRun s1
      (joinCore (s1.drop w)).map (fun (cap, n) => (cap, k.length + w + n))
    | none => none
  match withKind with
  | some r => some r
  | none =>
    let w := wsRun s
    (joinCore (s.drop w)).map (fun (cap, n) => (cap, w + n))

/-- Matcher for the INTO pattern of _parse_select (IGNORECASE). -/
def intoMatcher (_ : Option Char) (s : List Char) : Option (String × Nat) :=
  if isPreCI [ 'I', 'N', 'T', 'O'] s then
    let s1 := s.drop 4
    let w := wsRun s1
    if w == 0 then none
    else
      let s2 := s1.drop w
      let r := wordRun s2
      if r == 0 then none else some (String.mk (s2.take r), 4 + w + r)
  else none

/-- Matcher for the INSERT INTO pattern of _parse_insert (IGNORECASE). -/
def insertIntoMatcher (_ : Option Char) (s : List Char) : Option (String × Nat) :=
  if isPreCI [ 'I', 'N', 'S', 'E', 'R', 'T'] s then
    let s1 := s.drop 6
    let w := wsRun s1
    if w == 0 then none
    else
      match intoMatcher none (s1.drop w) with
      | some (t, n) => some (t, 6 + w + n)
      | none => none
  else none

/--
Matcher for the CREATE TABLE pattern of _parse_create_table: CREATE, an
optional OR REPLACE, TABLE, an optional IF NOT EXISTS, then the table
name (IGNORECASE).  Keyword sequences that match partially fall back to
the variant without the optional group, as the engine does.
-/
def createTableMatcher (_ : Option Char) (s : List Char) : Option (String × Nat) :=
  if isPreCI [ 'C', 'R', 'E', 'A', 'T', 'E'] s then
    let s1 := s.drop 6
    let w := wsRun s1
    if w == 0 then none
    else
      let s2 := s1.drop w
      -- optional OR REPLACE followed by whitespace
      let orRep : Option Nat :=
        if isPreCI [ 'O', 'R'] s2 then
          let a := s2.drop 2
          let w1 := wsRun a
          if w1 == 0 then none
          else
            let b := a.drop w1
            if isPreCI [ 'R', 'E', 'P', 'L', 'A', 'C', 'E'] b then
              let c := b.drop 7
              let w2 := wsRun c
              if w2 == 0 then none else some (2 + w1 + 7 + w2)
            else none
        else none
      let afterTable (s3 : List Char) (off : Nat) : Option (String × Nat) :=
        if isPreCI [ 'T', 'A', 'B', 'L', 'E'] s3 then
          let s4 := s3.drop 5
          let w3 := wsRun s4
          if w3 == 0 then none
          else
            let s5 := s4.drop w3
            -- optional IF NOT EXISTS followed by whitespace
            let ine : Option Nat :=
              if isPreCI [ 'I', 'F'] s5 then
                let a := s5.drop 2
                let w4 := wsRun a
                if w4 == 0 then none
                else
                  let b := a.drop w4
                  if isPreCI [ 'N', 'O', 'T'] b then
                    let c := b.drop 3
                    let w5 := wsRun c
                    if w5 == 0 then none
                    else
                      let d := c.drop w5
                      if isPreCI [ 'E', 'X', 'I', 'S', 'T', 'S'] d then
                        let e := d.drop 6
                        let w6 := wsRun e
                        if w6 == 0 then none
                        else some (2 + w4 + 3 + w5 + 6 + w6)
                      else none
                  else none
              else none
            let nameAt (s6 : List Char) (off2 : Nat) : Option (String × Nat) :=
              let r := wordRun s6
              if r == 0 then none
              else some (String.mk (s6.take r), off2 + r)
            match ine with
            | some k =>
              match nameAt (s5.drop k) (off + 5 + w3 + k) with
              | some res => some res
              | none => nameAt s5 (off + 5 + w3)
            | none => nameAt s5 (off + 5 + w3)
        else none
      match orRep with
      | some k =>
        match afterTable (s2.drop k) (6 + w + k) with
        | some res => some res
        | none => afterTable s2 (6 + w)
      | none => afterTable s2 (6 + w)
  else none

/-- The eight keyword heuristics of _is_sql. -/
def sqlKeywords : List String :=
  ["SELECT", "INSERT", "UPDATE", "DELETE", "CREATE", "FROM", "WHERE", "JOIN"]

/-- Method _is_sql: any keyword occurs in the uppercased text. -/
def isSql (text : String) : Bool :=
  sqlKeywords.any (fun kw => strContains (pyUpper text) kw)

/-- Method _parse_select of SQLAnalyzer. -/
def parseSelect (sql : String) : SQLDataFlow :=
  let fromTabs := (finditer fromMatcher sql).map
    (fun r => SQLTable.mk r.1.1 r.1.2 [] "table")
  let joinMs := (finditer joinMatcher sql).map (fun r => r.1)
  let joinTabs := joinMs.map (fun m => SQLTable.mk m.1 m.2 [] "table")
  let target := research intoMatcher sql
  { source_tables := fromTabs ++ joinTabs
    target_table := target
    operation := "SELECT"
    joins := joinMs
    transformations := [] }

/-- Method _parse_insert of SQLAnalyzer. -/
def parseInsert (sql : String) : SQLDataFlow :=
  let target := research insertIntoMatcher sql
  let sources :=
    if strContains (pyUpper sql) "SELECT" then (parseSelect sql).source_tables
    else []
  { source_tables := sources
    target_table := target
    operation := "INSERT"
    joins := []
    transformations := [] }

/-- Method _parse_create_table of SQLAnalyzer. -/
def parseCreateTable (sql : String) : SQLDataFlow :=
  let target := research createTableMatcher sql
  let sources :=
    if strContains (pyUpper sql) "AS" && strContains (pyUpper sql) "SELECT" then
      (parseSelect sql).source_tables
    else []
  { source_tables := sources
    target_table := target
    operation := "CREATE TABLE"
    joins := []
    transformations := [] }

/-- Method _parse_sql of SQLAnalyzer: keyword routing. -/
def parseSql (sql : String) : Option SQLDataFlow :=
  let up := pyUpper sql
  if strContains up "SELECT" then some (parseSelect sql)
  else if strContains up "INSERT" then some (parseInsert sql)
  else if strContains up "CREATE" && strContains up "TABLE" then
    some (parseCreateTable sql)
  else none

/--
Scanner for the first closing triple quote: returns the lazily captured
text before it and the characters consumed including the closer.
-/
def tqClose (q : Char) : List Char → Option (List Char × Nat)
  | [] => none
  | c :: cs =>
    if (c == q) && isPre [q, q] cs then some ([], 3)
    else
      match tqClose q cs with
      | some (cap, n) => some (c :: cap, n + 1)
      | none => none

/-- Matcher for a lazy triple-quoted block with quote character q. -/
def tripleQuoteMatcher (q : Char) (_ : Option Char) (s : List Char) :
    Option (String × Nat) :=
  if isPre [q, q, q] s then
    match tqClose q (s.drop 3) with
    | some (cap, n) => some (String.mk cap, 3 + n)
    | none => none
  else none

/--
Matcher for the spark-sql string pattern: a literal .sql, optional
whitespace, an opening parenthesis, optional whitespace, a quote, one or
more characters that are not quotes, and a closing quote of either kind.
-/
def sparkSqlMatcher (_ : Option Char) (s : List Char) : Option (String × Nat) :=
  if isPre [ '.', 's', 'q', 'l'] s then
    let s1 := s.drop 4
    let w1 := wsRun s1
    match s1.drop w1 with
    | '(' :: s2 =>
      let w2 := wsRun s2
      match s2.drop w2 with
      | c :: s3 =>
        if (c == '"') || (c == Char.ofNat 39) then
          let run := s3.takeWhile
            (fun d => !((d == '"') || (d == Char.ofNat 39)))
          let r := run.length
          if r == 0 then none
          else
            match s3.drop r with
            | d :: _ =>
              if (d == '"') || (d == Char.ofNat 39) then
                some (String.mk run, 4 + w1 + 1 + w2 + 1 + r + 1)
              else none
            | [] => none
        else none
      | [] => none
    | _ => none
  else none

/--
The three block scans of _extract_sql_blocks: triple-double-quoted
blocks, then triple-single-quoted blocks (each stripped and screened by
_is_sql), then .sql(...) string literals.
-/
def extractSqlBlocksScan (content : String) : List String :=
  let b1 := ((finditer (tripleQuoteMatcher '"') content).map
      (fun r => pyStrip r.1)).filter isSql
  let b2 := ((finditer (tripleQuoteMatcher (Char.ofNat 39)) content).map
      (fun r => pyStrip r.1)).filter isSql
  let b3 := (finditer sparkSqlMatcher content).map (fun r => r.1)
  b1 ++ b2 ++ b3

/-- Method _extract_sql_blocks: the three scans, then the whole-content
block behind the walrus truthiness test and the keyword heuristic. -/
def extractSqlBlocks (content : String) : List String :=
  let base := extractSqlBlocksScan content
  if (content != "") && isSql content then base ++ [content] else base

/-- Method analyze_content of SQLAnalyzer. -/
def analyzeContent (content : String) : List SQLDataFlow :=
  (extractSqlBlocks content).filterMap parseSql

end SQLAnalyzer

/-!
## Set-iteration order

Python list(set(xs)) lists the distinct elements of xs in a hash-seed
dependent order.  The analyzers take the listing function as an explicit
parameter ord; SetListOrder states what any run of CPython guarantees:
the result has no duplicates and exactly the members of the input.
List.dedup is one admissible instantiation.
-/

/-- A possible list(set(...)) listing: duplicate-free, same members. -/
def SetListOrder (ord : List String → List String) : Prop :=
  ∀ xs : List String, (ord xs).Nodup ∧ ∀ a : String, a ∈ ord xs ↔ a ∈ xs

theorem setListOrder_dedup : SetListOrder (fun xs => xs.dedup) :=
  fun xs => ⟨xs.nodup_dedup, fun _ => xs.mem_dedup⟩

theorem setListOrder_dedup_reverse :
    SetListOrder (fun xs => xs.dedup.reverse) := by
  intro xs
  refine ⟨List.nodup_reverse.mpr xs.nodup_dedup, fun a => ?_⟩
  rw [List.mem_reverse, List.mem_dedup]

/-!
## ShellAnalyzer
-/

namespace ShellAnalyzer

/--
Matcher for the shell function-definition pattern: at a line start, a
word, optional whitespace, parentheses with optional whitespace inside,
optional whitespace and an optional opening brace (MULTILINE).
-/
def funcDefMatcher (prev : Option Char) (s : List Char) : Option (String × Nat) :=
  let lineStart := match prev with
    | none => true
    | some c => c == '\n'
  if !lineStart then none
  else
    let r := wordRun s
    if r == 0 then none
    else
      let s1 := s.drop r
      let w1 := wsRun s1
      match s1.drop w1 with
      | '(' :: s2 =>
        let w2 := wsRun s2
        match s2.drop w2 with
        | ')' :: s3 =>
          let w3 := wsRun s3
          let brace := match s3.drop w3 with
            | '{' :: _ => 1
            | _ => 0
          some (String.mk (s.take r), r + w1 + 1 + w2 + 1 + w3 + brace)
        | _ => none
      | _ => none

/-- Matcher for the second shell form: the function keyword then a name. -/
def funcKwMatcher (prev : Option Char) (s : List Char) : Option (String × Nat) :=
  let lineStart := match prev with
    | none => true
    | some c => c == '\n'
  if !lineStart then none
  else if isPre [ 'f', 'u', 'n', 'c', 't', 'i', 'o', 'n'] s then
    let s1 := s.drop 8
    let w := wsRun s1
    if w == 0 then none
    else
      let s2 := s1.drop w
      let r := wordRun s2
      if r == 0 then none else some (String.mk (s2.take r), 8 + w + r)
  else none

/-- Index of the last newline in a list, if any. -/
def lastNlIdx : List Char → Option Nat
  | [] => none
  | c :: cs =>
    match lastNlIdx cs with
    | some i => some (i + 1)
    | none => if c == '\n' then some 0 else none

/--
Matcher for the call-like identifier pattern of _find_function_calls:
a word at a word boundary followed by an opening parenthesis, or by
whitespace and another word, or by optional whitespace and a MULTILINE
end of line.  The consumed lengths reproduce the backtracking order of
the engine: the maximal whitespace run is tried first (parenthesis, end
of text), then one step of backtracking reaches the following-word
alternative, then the end-of-line anchor before an inner newline.
-/
def callMatcher (prev : Option Char) (s : List Char) : Option (String × Nat) :=
  let boundary := match prev with
    | none => true
    | some c => !isWordChar c
  if !boundary then none
  else
    let r := wordRun s
    if r == 0 then none
    else
      let w := String.mk (s.take r)
      let s1 := s.drop r
      let k := wsRun s1
      match s1.drop k with
      | '(' :: _ => some (w, r + k + 1)
      | [] => some (w, r + k)
      | c :: s2 =>
        if (k != 0) && isWordChar c then
          some (w, r + k + (wordRun (c :: s2) + 1))
        else
          match lastNlIdx (s1.take k) with
          | some i => some (w, r + i)
          | none => none

/-- The keyword stoplist of _find_function_calls. -/
def callStop : List String :=
  ["if", "while", "for", "case", "echo", "exit", "return", "then", "else",
   "fi", "do", "done", "in"]

/--
Method _find_function_calls without the final list(set(...)) and cap:
the raw candidate list, in match order.
-/
def findFunctionCallsRaw (content : String) (funcName : String) : List String :=
  ((finditer callMatcher content).map (fun r => r.1)).filter
    (fun called => (called != funcName) && !callStop.contains called)

/-- Method _find_function_calls: deduplicate with ord and cap at 20. -/
def findFunctionCalls (ord : List String → List String)
    (content : String) (funcName : String) : List String :=
  (ord (findFunctionCallsRaw content funcName)).take 20

/-- The shell-keyword stoplist of the function-definition loop. -/
def defStop : List String :=
  ["if", "while", "for", "case", "then", "else", "fi", "do", "done"]

/--
The function records of analyze_file with the callee candidates still
raw; the dedup-and-cap step is applied by functionsOf below, exactly as
the source applies list(set(...))[:20] when each record is created.
-/
def functionsRaw (filePath content : String) : List FunctionInfo :=
  let l1 := ((finditer funcDefMatcher content).filter
      (fun r => !defStop.contains r.1)).map
    (fun r => FunctionInfo.mk r.1 filePath r.2.2
      (findFunctionCallsRaw content r.1) [] none false none)
  let l2 := (finditer funcKwMatcher content).map
    (fun r => FunctionInfo.mk r.1 filePath r.2.2
      (findFunctionCallsRaw content r.1) [] none false none)
  l1 ++ l2

/-- Apply the list(set(...))[:20] step of the lexical analyzers. -/
def applyOrdCap (ord : List String → List String) (f : FunctionInfo) :
    FunctionInfo :=
  { f with calls := (ord f.calls).take 20 }

/-- Apply the uncapped list(set(...)) step. -/
def applyOrd (ord : List String → List String) (f : FunctionInfo) :
    FunctionInfo :=
  { f with calls := ord f.calls }

/-- The function records of ShellAnalyzer.analyze_file. -/
def functionsOf (ord : List String → List String)
    (filePath content : String) : List FunctionInfo :=
  (functionsRaw filePath content).map (applyOrdCap ord)

/-- Search for the output-redirection pattern with its capture. -/
def redirectMatcher (_ : Option Char) (s : List Char) : Option (String × Nat) :=
  match s with
  | '>' :: s1 =>
    let w := wsRun s1
    let s2 := s1.drop w
    let run := s2.takeWhile (fun c => !isPySpace c)
    if run.length == 0 then none
    else some (String.mk run, 1 + w + run.length)
  | _ => none

/-- Index of the last closing parenthesis in a list, if any. -/
def lastParenIdx : List Char → Option Nat
  | [] => none
  | c :: cs =>
    match lastParenIdx cs with
    | some i => some (i + 1)
    | none => if c == ')' then some 0 else none

/-- Search for the input-redirection or cat-substitution pattern. -/
def inputMatcher (_ : Option Char) (s : List Char) : Option (Unit × Nat) :=
  match s with
  | '<' :: s1 =>
    let w := wsRun s1
    let run := (s1.drop w).takeWhile (fun c => !isPySpace c)
    if run.length == 0 then none else some ((), 1 + w + run.length)
  | '$' :: '(' :: 'c' :: 'a' :: 't' :: s1 =>
    let w := wsRun s1
    if w == 0 then none
    else
      let s2 := s1.drop w
      -- the greedy non-whitespace run must contain a closing parenthesis
      -- at index at least one, which then serves as the literal close
      let run := s2.takeWhile (fun c => !isPySpace c)
      match lastParenIdx run with
      | some i => if i == 0 then none else some ((), 2 + 3 + w + i + 1)
      | none => none
  | _ => none

/-- The data-flow nodes one shell line contributes, in source order. -/
def lineDataFlows (filePath : String) (lineNum : Nat) (line : String) :
    List DataFlowNode :=
  let spark :=
    if strContains line "spark-submit" || strContains line "pyspark" then
      [DataFlowNode.mk ("spark_submit_" ++ toString lineNum) "spark_job"
        filePath lineNum [] [] ["spark-submit"]]
    else []
  let outp :=
    match research redirectMatcher line with
    | some outputFile =>
      [DataFlowNode.mk ("file_write_" ++ toString lineNum) "file_output"
        filePath lineNum [] [outputFile] ["write"]]
    | none => []
  let inp :=
    match research inputMatcher line with
    | some _ =>
      [DataFlowNode.mk ("file_read_" ++ toString lineNum) "file_input"
        filePath lineNum [] [] ["read"]]
    | none => []
  let pipe :=
    if strContains line "|" then
      [DataFlowNode.mk ("pipe_" ++ toString lineNum) "pipe"
        filePath lineNum [] [] ["pipe"]]
    else []
  spark ++ outp ++ inp ++ pipe

/-- The data-flow nodes of analyze_file, lines enumerated from 1. -/
def dataFlowsOf (filePath content : String) : List DataFlowNode :=
  ((splitLines content).enumFrom 1).flatMap
    (fun p => lineDataFlows filePath p.1 p.2)

/-- Method analyze_file of ShellAnalyzer. -/
def analyzeFile (ord : List String → List String)
    (filePath content : String) : List FunctionInfo × List DataFlowNode :=
  (functionsOf ord filePath content, dataFlowsOf filePath content)

end ShellAnalyzer

/-!
## BatchAnalyzer
-/

namespace BatchAnalyzer

/-- Matcher for a batch label: a line-start colon then a word (MULTILINE). -/
def labelMatcher (prev : Option Char) (s : List Char) : Option (String × Nat) :=
  let lineStart := match prev with
    | none => true
    | some c => c == '\n'
  if !lineStart then none
  else
    match s with
    | ':' :: s1 =>
      let r := wordRun s1
      if r == 0 then none else some (String.mk (s1.take r), 1 + r)
    | _ => none

/--
Matcher for goto or call targets: the keyword at a word boundary,
whitespace, an optional colon and the target word (IGNORECASE).
-/
def gotoCallMatcher (kw : List Char) (prev : Option Char) (s : List Char) :
    Option (String × Nat) :=
  let boundary := match prev with
    | none => true
    | some c => !isWordChar c
  if !boundary then none
  else if isPreCI kw s then
    let s1 := s.drop kw.length
    let w := wsRun s1
    if w == 0 then none
    else
      let s2 := s1.drop w
      let (colon, s3) := match s2 with
        | ':' :: t => (1, t)
        | _ => (0, s2)
      let r := wordRun s3
      if r == 0 then none
      else some (String.mk (s3.take r), kw.length + w + colon + r)
  else none

/-- Method _find_goto_calls without list(set(...)): goto then call targets. -/
def findGotoCallsRaw (content : String) : List String :=
  ((finditer (gotoCallMatcher [ 'g', 'o', 't', 'o']) content).map (fun r => r.1))
    ++ ((finditer (gotoCallMatcher [ 'c', 'a', 'l', 'l']) content).map
      (fun r => r.1))

/-- Method _find_goto_calls: deduplicated with ord, not capped. -/
def findGotoCalls (ord : List String → List String) (content : String) :
    List String :=
  ord (findGotoCallsRaw content)

/-- The label records of analyze_file with raw callee candidates. -/
def functionsRaw (filePath content : String) : List FunctionInfo :=
  ((finditer labelMatcher content).filter
      (fun r => !(pyUpper r.1 == "EOF" || pyUpper r.1 == "END"))).map
    (fun r => FunctionInfo.mk r.1 filePath r.2.2
      (findGotoCallsRaw content) [] none false none)

/-- The function records of BatchAnalyzer.analyze_file. -/
def functionsOf (ord : List String → List String)
    (filePath content : String) : List FunctionInfo :=
  (functionsRaw filePath content).map (ShellAnalyzer.applyOrd ord)

/-- Case-insensitive whole-word containment, the ci word-boundary test. -/
def wordMatcherCI (kw : List Char) (prev : Option Char) (s : List Char) :
    Option (Unit × Nat) :=
  let boundary := match prev with
    | none => true
    | some c => !isWordChar c
  if !boundary then none
  else if isPreCI kw s then
    match s.drop kw.length with
    | [] => some ((), kw.length)
    | c :: _ => if isWordChar c then none else some ((), kw.length)
  else none

/-- Matcher for the call statement pattern of the per-line loop. -/
def callStmtMatcher (prev : Option Char) (s : List Char) : Option (Unit × Nat) :=
  let boundary := match prev with
    | none => true
    | some c => !isWordChar c
  if !boundary then none
  else if isPreCI [ 'c', 'a', 'l', 'l'] s then
    let s1 := s.drop 4
    match s1 with
    | c :: _ =>
      if isWordChar c then none
      else
        let w := wsRun s1
        if w == 0 then none
        else
          let s2 := s1.drop w
          let (colon, s3) := match s2 with
            | ':' :: t => (1, t)
            | _ => (0, s2)
          let r := wordRun s3
          if r == 0 then none else some ((), 4 + w + colon + r)
    | [] => none
  else none

/-- The data-flow nodes one batch line contributes, in source order. -/
def lineDataFlows (filePath : String) (lineNum : Nat) (line : String) :
    List DataFlowNode :=
  let outp :=
    match research ShellAnalyzer.redirectMatcher line with
    | some outputFile =>
      [DataFlowNode.mk ("file_write_" ++ toString lineNum) "file_output"
        filePath lineNum [] [outputFile] ["write"]]
    | none => []
  let inp :=
    if ((research (wordMatcherCI [ 't', 'y', 'p', 'e']) line).isSome
        || (research (wordMatcherCI [ 'f', 'i', 'n', 'd']) line).isSome
        || (research (wordMatcherCI [ 'd', 'i', 'r']) line).isSome) then
      [DataFlowNode.mk ("file_read_" ++ toString lineNum) "file_input"
        filePath lineNum [] [] ["read"]]
    else []
  let pipe :=
    if strContains line "|" then
      [DataFlowNode.mk ("pipe_" ++ toString lineNum) "pipe"
        filePath lineNum [] [] ["pipe"]]
    else []
  let callN :=
    if (research callStmtMatcher line).isSome then
      [DataFlowNode.mk ("call_" ++ toString lineNum) "subroutine_call"
        filePath lineNum [] [] ["call"]]
    else []
  outp ++ inp ++ pipe ++ callN

/-- The data-flow nodes of analyze_file, lines enumerated from 1. -/
def dataFlowsOf (filePath content : String) : List DataFlowNode :=
  ((splitLines content).enumFrom 1).flatMap
    (fun p => lineDataFlows filePath p.1 p.2)

/-- Method analyze_file of BatchAnalyzer. -/
def analyzeFile (ord : List String → List String)
    (filePath content : String) : List FunctionInfo × List DataFlowNode :=
  (functionsOf ord filePath content, dataFlowsOf filePath content)

end BatchAnalyzer

/-!
## JavaAnalyzer
-/

namespace JavaAnalyzer

/-- A keyword that must be followed by at least one whitespace character. -/
def kwWs (kw : List Char) (s : List Char) : Option Nat :=
  if isPre kw s then
    let w := wsRun (s.drop kw.length)
    if w == 0 then none else some (kw.length + w)
  else none

/--
An optional group with regex backtracking: if the group matches but the
continuation fails, retry the continuation without the group.
-/
def withOpt (opt : List Char → Option Nat)
    (k : List Char → Option (α × Nat)) (s : List Char) : Option (α × Nat) :=
  match opt s with
  | some n =>
    match k (s.drop n) with
    | some (a, m) => some (a, n + m)
    | none => k s
  | none => k s

/-- The visibility-modifier alternation, each keyword with whitespace. -/
def visTry (s : List Char) : Option Nat :=
  match kwWs [ 'p', 'u', 'b', 'l', 'i', 'c'] s with
  | some n => some n
  | none =>
    match kwWs [ 'p', 'r', 'i', 'v', 'a', 't', 'e'] s with
    | some n => some n
    | none => kwWs [ 'p', 'r', 'o', 't', 'e', 'c', 't', 'e', 'd'] s

/-- Index of the last closing angle bracket in a list, if any. -/
def lastGtIdx : List Char → Option Nat
  | [] => none
  | c :: cs =>
    match lastGtIdx cs with
    | some i => some (i + 1)
    | none => if c == '>' then some 0 else none

/-- One character of the class made of word characters, commas and spaces. -/
def isClassListChar (c : Char) : Bool :=
  isWordChar c || (c == ',') || isPySpace c

/--
Core of the class-declaration pattern after the optional modifiers: the
class keyword, the name, an optional extends clause and an optional
implements clause whose capture is split on commas and stripped.
-/
def classCore (s : List Char) : Option ((String × List String) × Nat) :=
  match kwWs [ 'c', 'l', 'a', 's', 's'] s with
  | none => none
  | some k0 =>
    let s1 := s.drop k0
    let r := wordRun s1
    if r == 0 then none
    else
      let nm := String.mk (s1.take r)
      let s2 := s1.drop r
      let ext : Option (Nat × String) :=
        let w1 := wsRun s2
        if w1 == 0 then none
        else
          match kwWs [ 'e', 'x', 't', 'e', 'n', 'd', 's'] (s2.drop w1) with
          | some k1 =>
            let s3 := s2.drop (w1 + k1)
            let r2 := wordRun s3
            if r2 == 0 then none
            else some (w1 + k1 + r2, String.mk (s3.take r2))
          | none => none
      let (k2, baseCls) := match ext with
        | some (k, b) => (k, [pyStrip b])
        | none => (0, ([] : List String))
      let s4 := s2.drop k2
      let impl : Option (Nat × String) :=
        let w2 := wsRun s4
        if w2 == 0 then none
        else
          match kwWs [ 'i', 'm', 'p', 'l', 'e', 'm', 'e', 'n', 't', 's']
              (s4.drop w2) with
          | some k3 =>
            let s5 := s4.drop (w2 + k3)
            let run := s5.takeWhile isClassListChar
            if run.length == 0 then none
            else some (w2 + k3 + run.length, String.mk run)
          | none => none
      let (k4, ifaces) := match impl with
        | some (k, g3) =>
          (k, (((splitOnChar ',' g3.data).map String.mk).map pyStrip).filter
            (fun i => i != ""))
        | none => (0, ([] : List String))
      some ((nm, baseCls ++ ifaces), k0 + r + k2 + k4)

/-- Matcher for the class-declaration pattern with its optional modifiers. -/
def classMatcher (_ : Option Char) (s : List Char) :
    Option ((String × List String) × Nat) :=
  withOpt visTry
    (withOpt (fun t =>
        match kwWs [ 'a', 'b', 's', 't', 'r', 'a', 'c', 't'] t with
        | some n => some n
        | none => kwWs [ 'f', 'i', 'n', 'a', 'l'] t)
      classCore) s

/--
The brace scan of analyze_file that isolates a class body: starting at
the match start, count braces; the body ends where the count returns to
zero after the first opening brace.  Without a balanced close the end
stays at the start, giving an empty body, as in the source.
-/
def classEndOff (cnt : Int) (inC : Bool) (i : Nat) : List Char → Nat
  | [] => 0
  | c :: cs =>
    if c == '{' then classEndOff (cnt + 1) true (i + 1) cs
    else if c == '}' then
      if inC && (cnt - 1 == 0) then i
      else classEndOff (cnt - 1) inC (i + 1) cs
    else classEndOff cnt inC (i + 1) cs

/--
Core of the method pattern after the optional modifiers: a return type
with an optional generic argument, the method name, a parameter list, an
optional throws clause and the opening brace of the body.
-/
def methodCore (s : List Char) : Option (String × Nat) :=
  let r := wordRun s
  if r == 0 then none
  else
    let s1 := s.drop r
    let gen : Option Nat :=
      match s1 with
      | '<' :: t =>
        let run := t.takeWhile (fun c =>
          isClassListChar c || (c == '<') || (c == '>'))
        match lastGtIdx run with
        | some i => if i == 0 then none else some (1 + i + 1)
        | none => none
      | _ => none
    let (k1, s2) := match gen with
      | some k => (k, s1.drop k)
      | none => (0, s1)
    let w1 := wsRun s2
    if w1 == 0 then none
    else
      let s3 := s2.drop w1
      let r2 := wordRun s3
      if r2 == 0 then none
      else
        let nm := String.mk (s3.take r2)
        let s4 := s3.drop r2
        let w2 := wsRun s4
        match s4.drop w2 with
        | '(' :: s5 =>
          let ps := s5.takeWhile (fun c => c != ')')
          match s5.drop ps.length with
          | ')' :: s6 =>
            let w3 := wsRun s6
            let s7 := s6.drop w3
            let thr : Option Nat :=
              match kwWs [ 't', 'h', 'r', 'o', 'w', 's'] s7 with
              | some k =>
                let run := (s7.drop k).takeWhile isClassListChar
                if run.length == 0 then none else some (k + run.length)
              | none => none
            let (k2, s8) := match thr with
              | some k => (k, s7.drop k)
              | none => (0, s7)
            let w4 := wsRun s8
            match s8.drop w4 with
            | '{' :: _ =>
              some (nm,
                r + k1 + w1 + r2 + w2 + 1 + ps.length + 1 + w3 + k2 + w4 + 1)
            | _ => none
          | _ => none
        | _ => none

/-- Matcher for the method pattern with its optional modifier chain. -/
def methodMatcher (_ : Option Char) (s : List Char) : Option (String × Nat) :=
  withOpt visTry
    (withOpt (kwWs [ 's', 't', 'a', 't', 'i', 'c'])
      (withOpt (kwWs [ 'f', 'i', 'n', 'a', 'l'])
        (withOpt (kwWs [ 's', 'y', 'n', 'c', 'h', 'r', 'o', 'n', 'i', 'z',
            'e', 'd'])
          methodCore))) s

/-- The control-flow keywords excluded from method names. -/
def methodStop : List String := ["if", "while", "for", "switch", "catch", "try"]

/-- Method _extract_methods of JavaAnalyzer. -/
def extractMethods (classContent : String) : List String :=
  ((finditer methodMatcher classContent).map (fun r => r.1)).filter
    (fun m => !methodStop.contains m)

/--
Core of the field pattern after the required visibility modifier and the
optional static and final: a type with optional generic argument, the
field name and a semicolon or equals sign.
-/
def attrCore (s : List Char) : Option (String × Nat) :=
  let r := wordRun s
  if r == 0 then none
  else
    let s1 := s.drop r
    let gen : Option Nat :=
      match s1 with
      | '<' :: t =>
        let run := t.takeWhile (fun c =>
          isClassListChar c || (c == '<') || (c == '>'))
        match lastGtIdx run with
        | some i => if i == 0 then none else some (1 + i + 1)
        | none => none
      | _ => none
    let (k1, s2) := match gen with
      | some k => (k, s1.drop k)
      | none => (0, s1)
    let w1 := wsRun s2
    if w1 == 0 then none
    else
      let s3 := s2.drop w1
      let r2 := wordRun s3
      if r2 == 0 then none
      else
        let s4 := s3.drop r2
        let w2 := wsRun s4
        match s4.drop w2 with
        | ';' :: _ => some (String.mk (s3.take r2), r + k1 + w1 + r2 + w2 + 1)
        | '=' :: _ => some (String.mk (s3.take r2), r + k1 + w1 + r2 + w2 + 1)
        | _ => none

/-- Matcher for the field pattern; the visibility modifier is required. -/
def attrMatcher (_ : Option Char) (s : List Char) : Option (String × Nat) :=
  match visTry s with
  | some n =>
    ((withOpt (kwWs [ 's', 't', 'a', 't', 'i', 'c'])
        (withOpt (kwWs [ 'f', 'i', 'n', 'a', 'l']) attrCore)) (s.drop n)).map
      (fun (a, m) => (a, n + m))
  | none => none

/-- Method _extract_attributes of JavaAnalyzer, capped at 50. -/
def extractAttributes (classContent : String) : List String :=
  (((finditer attrMatcher classContent).map (fun r => r.1)).take 50)

/-- Matcher for the call pattern of _find_method_calls. -/
def javaCallMatcher (_ : Option Char) (s : List Char) : Option (String × Nat) :=
  let core (t : List Char) : Option (String × Nat) :=
    let r := wordRun t
    if r == 0 then none
    else
      let w := wsRun (t.drop r)
      match (t.drop r).drop w with
      | '(' :: _ => some (String.mk (t.take r), r + w + 1)
      | _ => none
  withOpt (fun t =>
      let r := wordRun t
      if r == 0 then none
      else
        match t.drop r with
        | '.' :: _ => some (r + 1)
        | _ => none)
    core s

/-- The keyword stoplist of _find_method_calls. -/
def javaCallStop : List String :=
  ["if", "while", "for", "switch", "catch", "try", "new", "return"]

/-- Method _find_method_calls without the list(set(...))[:20] step. -/
def findMethodCallsRaw (content : String) (methodName : String) : List String :=
  ((finditer javaCallMatcher content).map (fun r => r.1)).filter
    (fun called => (called != methodName) && !javaCallStop.contains called)

/-- Method _find_method_calls: deduplicate with ord and cap at 20. -/
def findMethodCalls (ord : List String → List String)
    (content : String) (methodName : String) : List String :=
  (ord (findMethodCallsRaw content methodName)).take 20

/-- Matcher for the interface-declaration pattern. -/
def interfaceMatcher (_ : Option Char) (s : List Char) : Option (String × Nat) :=
  withOpt (kwWs [ 'p', 'u', 'b', 'l', 'i', 'c'])
    (fun t =>
      match kwWs [ 'i', 'n', 't', 'e', 'r', 'f', 'a', 'c', 'e'] t with
      | none => none
      | some k0 =>
        let t1 := t.drop k0
        let r := wordRun t1
        if r == 0 then none
        else
          let nm := String.mk (t1.take r)
          let t2 := t1.drop r
          let ext : Option Nat :=
            let w1 := wsRun t2
            if w1 == 0 then none
            else
              match kwWs [ 'e', 'x', 't', 'e', 'n', 'd', 's'] (t2.drop w1) with
              | some k1 =>
                let run := (t2.drop (w1 + k1)).takeWhile isClassListChar
                if run.length == 0 then none else some (w1 + k1 + run.length)
              | none => none
          let k2 := match ext with
            | some k => k
            | none => 0
          some (nm, k0 + r + k2)) s

/-- The JDBC keyword alternation, matched case-insensitively. -/
def jdbcKinds : List (List Char) :=
  [('e' :: [ 'x', 'e', 'c', 'u', 't', 'e', 'Q', 'u', 'e', 'r', 'y']),
   ('e' :: [ 'x', 'e', 'c', 'u', 't', 'e', 'U', 'p', 'd', 'a', 't', 'e']),
   ('p' :: [ 'r', 'e', 'p', 'a', 'r', 'e', 'S', 't', 'a', 't', 'e', 'm',
     'e', 'n', 't'])]

/-- Matcher for the JDBC pattern with its quoted SQL capture. -/
def jdbcMatcher (_ : Option Char) (s : List Char) : Option (String × Nat) :=
  match jdbcKinds.find? (fun k => isPreCI k s) with
  | none => none
  | some kw =>
    let s1 := s.drop kw.length
    let w1 := wsRun s1
    match s1.drop w1 with
    | '(' :: s2 =>
      let w2 := wsRun s2
      match s2.drop w2 with
      | c :: s3 =>
        if (c == '"') || (c == Char.ofNat 39) then
          let run := s3.takeWhile
            (fun d => !((d == '"') || (d == Char.ofNat 39)))
          if run.length == 0 then none
          else
            match s3.drop run.length with
            | d :: _ =>
              if (d == '"') || (d == Char.ofNat 39) then
                some (String.mk run,
                  kw.length + w1 + 1 + w2 + 1 + run.length + 1)
              else none
            | [] => none
        else none
      | [] => none
    | _ => none

/-- The file-stream constructor alternation of the file pattern. -/
def fileStreamKinds : List String :=
  ["FileInputStream", "FileOutputStream", "FileReader", "FileWriter",
   "BufferedReader", "BufferedWriter"]

/-- Matcher for the file-stream pattern; only the match position is used. -/
def fileStreamMatcher (_ : Option Char) (s : List Char) : Option (Unit × Nat) :=
  match fileStreamKinds.find? (fun k => isPreCI k.data s) with
  | none => none
  | some kw =>
    let s1 := s.drop kw.length
    let w1 := wsRun s1
    match s1.drop w1 with
    | '(' :: s2 =>
      let w2 := wsRun s2
      let (q, s3) := match s2.drop w2 with
        | c :: t =>
          if (c == '"') || (c == Char.ofNat 39) then (1, t)
          else (0, s2.drop w2)
        | [] => (0, ([] : List Char))
      let run := s3.takeWhile (fun c =>
        !((c == '"') || (c == Char.ofNat 39) || (c == ')') || isPySpace c))
      if run.length == 0 then none
      else some ((), kw.length + w1 + 1 + w2 + q + run.length)
    | _ => none

/-- One class match of analyze_file: its record and its method records
with raw callee candidates. -/
def classRecordRaw (filePath content : String)
    (r : (String × List String) × Nat × Nat) :
    ClassInfo × List FunctionInfo :=
  let start := r.2.1
  let line := r.2.2
  let nm := r.1.1
  let bases := r.1.2
  let off := classEndOff 0 false 0 (content.data.drop start)
  let classContent := String.mk ((content.data.drop start).take off)
  let methods := extractMethods classContent
  let attrs := extractAttributes classContent
  (ClassInfo.mk nm filePath line methods bases attrs,
   methods.map (fun m => FunctionInfo.mk m filePath line
     (findMethodCallsRaw classContent m) [] none true (some nm)))

/-- The class and method records of analyze_file, callees still raw. -/
def classRecordsRaw (filePath content : String) :
    List (ClassInfo × List FunctionInfo) :=
  (finditer classMatcher content).map (classRecordRaw filePath content)

/-- The interface records of analyze_file. -/
def interfaceRecords (filePath content : String) : List ClassInfo :=
  (finditer interfaceMatcher content).map
    (fun r => ClassInfo.mk r.1 filePath r.2.2 [] [] [])

/-- The data-flow nodes of analyze_file: JDBC calls then file streams. -/
def dataFlowsOf (filePath content : String) : List DataFlowNode :=
  ((finditer jdbcMatcher content).map
    (fun r => DataFlowNode.mk ("jdbc_query_" ++ toString r.2.2)
      "jdbc_operation" filePath r.2.2 [] [] [String.mk (r.1.data.take 50)]))
  ++ ((finditer fileStreamMatcher content).map
    (fun r => DataFlowNode.mk ("file_io_" ++ toString r.2.2)
      "file_operation" filePath r.2.2 [] [] ["file_io"]))

/-- Method analyze_file of JavaAnalyzer. -/
def analyzeFile (ord : List String → List String) (filePath content : String) :
    List ClassInfo × List FunctionInfo × List DataFlowNode :=
  let cl := classRecordsRaw filePath content
  ((cl.map (fun p => p.1)) ++ interfaceRecords filePath content,
   (cl.flatMap (fun p => p.2)).map (ShellAnalyzer.applyOrdCap ord),
   dataFlowsOf filePath content)

end JavaAnalyzer

/-!
## PySparkAnalyzer
-/

namespace PySparkAnalyzer

/-- The fixed vocabulary spark_operations, in source order. -/
def sparkOperations : List String :=
  ["read", "write", "load", "save", "csv", "parquet", "json", "jdbc",
   "select", "filter", "where", "groupBy", "agg", "join", "union",
   "withColumn", "drop", "distinct", "orderBy", "sort", "limit",
   "createOrReplaceTempView", "sql", "cache", "persist", "collect",
   "show", "count", "first", "take", "toPandas", "repartition", "coalesce"]

/-- Matcher for a dot, an operation name, optional whitespace, a paren. -/
def dotOpMatcher (op : List Char) (_ : Option Char) (s : List Char) :
    Option (Unit × Nat) :=
  match s with
  | '.' :: s1 =>
    if isPre op s1 then
      let s2 := s1.drop op.length
      let w := wsRun s2
      match s2.drop w with
      | '(' :: _ => some ((), 1 + op.length + w + 1)
      | _ => none
    else none
  | _ => none

/-- Method _extract_variable: the assigned identifier at line start. -/
def extractVariable (line : String) : String :=
  let s := line.data
  let w := wsRun s
  let s1 := s.drop w
  let r := wordRun s1
  if r == 0 then ""
  else
    let s2 := s1.drop r
    let w2 := wsRun s2
    match s2.drop w2 with
    | '=' :: _ => String.mk (s1.take r)
    | _ => ""

/-- The chained-call operation names recognized by _extract_dataframe. -/
def dfOps : List String :=
  ["select", "filter", "where", "groupBy", "join", "union", "withColumn"]

/-- Matcher for the receiver of a recognized chained call. -/
def dfMatcher (_ : Option Char) (s : List Char) : Option (String × Nat) :=
  let r := wordRun s
  if r == 0 then none
  else
    match s.drop r with
    | '.' :: s1 =>
      match dfOps.find? (fun op => isPre op.data s1) with
      | some op => some (String.mk (s.take r), r + 1 + op.length)
      | none => none
    | _ => none

/-- Method _extract_dataframe. -/
def extractDataframe (line : String) : String :=
  match research dfMatcher line with
  | some v => v
  | none => ""

/-- Matcher for the first quoted literal of a line. -/
def quotedMatcher (_ : Option Char) (s : List Char) : Option (String × Nat) :=
  match s with
  | c :: s1 =>
    if (c == '"') || (c == Char.ofNat 39) then
      let run := s1.takeWhile (fun d => !((d == '"') || (d == Char.ofNat 39)))
      if run.length == 0 then none
      else
        match s1.drop run.length with
        | d :: _ =>
          if (d == '"') || (d == Char.ofNat 39) then
            some (String.mk run, 1 + run.length + 1)
          else none
        | [] => none
    else none
  | [] => none

/-- Method _extract_output_path, defaulting to the literal output. -/
def extractOutputPath (line : String) : String :=
  match research quotedMatcher line with
  | some v => v
  | none => "output"

/-- Method _parse_spark_operation; the source never returns None here. -/
def parseSparkOperation (line : String) (operation : String) (filePath : String)
    (lineNum : Nat) : DataFlowNode :=
  let varName := extractVariable line
  let inputDf := extractDataframe line
  DataFlowNode.mk (operation ++ "_" ++ toString lineNum) "transformation"
    filePath lineNum
    (if inputDf != "" then [inputDf] else [])
    (if varName != "" then [varName] else [])
    [operation]

/-- The data-flow nodes one line contributes in analyze_file. -/
def lineDataFlows (filePath : String) (lineNum : Nat) (line : String) :
    List DataFlowNode :=
  let ops := (sparkOperations.filter
      (fun op => (research (dotOpMatcher op.data) line).isSome)).map
    (fun op => parseSparkOperation line op filePath lineNum)
  let rd :=
    if strContains line "spark.read" || strContains line "SparkSession" then
      [DataFlowNode.mk ("spark_read_" ++ toString lineNum) "data_source"
        filePath lineNum [] [extractVariable line] ["read"]]
    else []
  let wr :=
    if strContains line ".write." || strContains line ".save("
        || strContains line ".saveAsTable(" then
      [DataFlowNode.mk ("spark_write_" ++ toString lineNum) "data_sink"
        filePath lineNum [extractDataframe line] [extractOutputPath line]
        ["write"]]
    else []
  ops ++ rd ++ wr

/-- Method analyze_file of PySparkAnalyzer. -/
def analyzeFile (filePath content : String) : List DataFlowNode :=
  ((splitLines content).enumFrom 1).flatMap
    (fun p => lineDataFlows filePath p.1 p.2)

end PySparkAnalyzer

/-!
## PythonAnalyzer

ast.parse belongs to the Python standard library, outside this
repository; a parsed file is therefore represented by a small syntax
tree over which the NodeVisitor subclass PythonAnalyzer is embedded.
Generic compound statements (loops, conditionals, with-blocks) are
represented by the block constructor, whose children generic_visit
traverses exactly as it does in the source.
-/

/-- Python expressions, as far as the visitor inspects them. -/
inductive PyExpr where
  | name (id : String)
  | attr (value : PyExpr) (attrName : String)
  | call (func : PyExpr) (args : List PyExpr)
  | const (val : String)

/-- Python statements, as far as the visitor inspects them. -/
inductive PyStmt where
  | classDef (nm : String) (lineno : Nat) (bases : List PyExpr)
      (body : List PyStmt)
  | funcDef (isAsync : Bool) (nm : String) (lineno : Nat) (args : List String)
      (ret : Option String) (body : List PyStmt)
  | assign (targets : List PyExpr) (value : PyExpr)
  | exprStmt (e : PyExpr)
  | block (body : List PyStmt)
  | pass

namespace PythonAnalyzer

/-- Method _get_attr_name: the dotted chain of an attribute expression. -/
def getAttrParts : PyExpr → List String
  | .attr v a => a :: getAttrParts v
  | .name id => [id]
  | _ => []

/-- The dotted name joined as in the source. -/
def getAttrName (e : PyExpr) : String :=
  String.mk (joinWith '.' (((getAttrParts e).reverse).map String.data))

/-- Method _get_call_name. -/
def getCallName : PyExpr → Option String
  | .name id => some id
  | .attr v a => some (getAttrName (.attr v a))
  | _ => none

/-- Base-class extraction of visit_ClassDef: names and dotted chains. -/
def baseToName : PyExpr → Option String
  | .name id => some id
  | .attr v a => some (getAttrName (.attr v a))
  | _ => none

mutual
/-- All call names in an expression subtree, as ast.walk feeds them to
_get_call_name (traversal order is irrelevant after set conversion). -/
def callsInExpr : PyExpr → List String
  | .name _ => []
  | .const _ => []
  | .attr v _ => callsInExpr v
  | .call f args =>
    (match getCallName (.call f args) with
     | some nm => [nm]
     | none => []) ++ callsInExpr f ++ callsInExprs args

def callsInExprs : List PyExpr → List String
  | [] => []
  | e :: es => callsInExpr e ++ callsInExprs es
end

mutual
/-- All call names in a statement subtree (the ast.walk of
_process_function descends into nested definitions too). -/
def callsInStmt : PyStmt → List String
  | .classDef _ _ bases body => callsInExprs bases ++ callsInStmts body
  | .funcDef _ _ _ _ _ body => callsInStmts body
  | .assign targets value => callsInExprs targets ++ callsInExpr value
  | .exprStmt e => callsInExpr e
  | .block body => callsInStmts body
  | .pass => []

def callsInStmts : List PyStmt → List String
  | [] => []
  | s :: ss => callsInStmt s ++ callsInStmts ss
end

/-- The traversal state of the visitor: the single mutable current-class
slot and the accumulated records. -/
structure VisitState where
  cur : Option String
  classes : List ClassInfo
  functions : List FunctionInfo

/-- The direct-child method names of a class body. -/
def directMethods : List PyStmt → List String
  | [] => []
  | .funcDef _ nm _ _ _ _ :: rest => nm :: directMethods rest
  | _ :: rest => directMethods rest

/-- The direct-child assigned attribute names of a class body. -/
def directAttrs : List PyStmt → List String
  | [] => []
  | .assign targets _ :: rest =>
    (targets.filterMap (fun t => match t with
      | .name id => some id
      | _ => none)) ++ directAttrs rest
  | _ :: rest => directAttrs rest

/--
The visitor of PythonAnalyzer with the callee lists still raw; the
list(set(...)) step of _process_function is applied afterwards by
applyOrd, exactly as the source applies it when each record is created.
visit_ClassDef records the class, sets the current-class slot, lets
generic_visit walk the body and then clears the slot; _process_function
records the function and lets generic_visit walk the body with the slot
unchanged.
-/
def visitList (path : String) : List PyStmt → VisitState → VisitState
  | [], st => st
  | .classDef nm ln bases body :: rest, st =>
    let classRec : ClassInfo :=
      { name := nm, file_path := path, line_number := ln
        methods := directMethods body
        base_classes := bases.filterMap baseToName
        attributes := directAttrs body }
    let st1 : VisitState :=
      { st with classes := st.classes ++ [classRec], cur := some nm }
    let st2 := visitList path body st1
    visitList path rest { st2 with cur := none }
  | .funcDef _ nm ln args ret body :: rest, st =>
    let funcRec : FunctionInfo :=
      { name := nm, file_path := path, line_number := ln
        calls := callsInStmts body
        parameters := args
        returns := ret
        is_method := st.cur.isSome
        class_name := st.cur }
    let st1 : VisitState := { st with functions := st.functions ++ [funcRec] }
    let st2 := visitList path body st1
    visitList path rest st2
  | .block body :: rest, st =>
    visitList path rest (visitList path body st)
  | _ :: rest, st => visitList path rest st

/-- The class records of a parsed file, in visit order. -/
def classesOf (path : String) (tree : List PyStmt) : List ClassInfo :=
  (visitList path tree ⟨none, [], []⟩).classes

/-- The function records of a parsed file with raw callee lists. -/
def functionsRaw (path : String) (tree : List PyStmt) : List FunctionInfo :=
  (visitList path tree ⟨none, [], []⟩).functions

/-- The function records of a parsed file, callees deduplicated by ord. -/
def functionsOf (ord : List String → List String) (path : String)
    (tree : List PyStmt) : List FunctionInfo :=
  (functionsRaw path tree).map (ShellAnalyzer.applyOrd ord)

end PythonAnalyzer

/-!
## ProjectAnalyzer

The aggregator.  File discovery walks the file system; a run is modelled
over an already-discovered repository: each bucket carries its files in
discovery order, a file being a path, its content (reads are assumed to
succeed; the source skips unreadable files) and, for Python files, the
outcome of the external ast.parse.  The instance attributes of
ProjectAnalyzer form AnalyzerState; analyze appends the discovered files
to the never-reset file buckets and then runs every pass over the full
accumulated buckets, appending records to the shared collections.
-/

/-- A discovered Python file with its external parse outcome. -/
structure PyFile where
  path : String
  content : String
  parsed : Option (List PyStmt)

/-- A discovered non-Python file. -/
structure SrcFile where
  path : String
  content : String
  deriving DecidableEq, Repr

/-- A raw SQL statement entry of self.sql_statements. -/
structure SqlStatement where
  sql : String
  file_path : String
  deriving DecidableEq, Repr

/-- The mutable instance attributes of ProjectAnalyzer. -/
structure AnalyzerState where
  python_files : List PyFile := []
  sql_files : List SrcFile := []
  shell_files : List SrcFile := []
  batch_files : List SrcFile := []
  java_files : List SrcFile := []
  classes : List ClassInfo := []
  functions : List FunctionInfo := []
  data_flows : List DataFlowNode := []
  sql_flows : List SQLDataFlow := []
  sql_statements : List SqlStatement := []

/-- A repository in discovery order, already classified by extension. -/
structure Repo where
  python : List PyFile := []
  sql : List SrcFile := []
  shell : List SrcFile := []
  batch : List SrcFile := []
  java : List SrcFile := []

/-- The freshly constructed ProjectAnalyzer instance. -/
def emptyState : AnalyzerState := {}

namespace ProjectAnalyzer

/-- The class records contributed by _analyze_python_files: none when
ast.parse raised a SyntaxError. -/
def pyFileClasses (f : PyFile) : List ClassInfo :=
  match f.parsed with
  | some tree => PythonAnalyzer.classesOf f.path tree
  | none => []

/-- The function records contributed by one Python file, callees raw. -/
def pyFileFunctionsRaw (f : PyFile) : List FunctionInfo :=
  match f.parsed with
  | some tree => PythonAnalyzer.functionsRaw f.path tree
  | none => []

/-- The data-flow nodes contributed by one Python file: the PySpark pass
when the lowercased content mentions pyspark or spark. -/
def pyFileDataFlows (f : PyFile) : List DataFlowNode :=
  if strContains (pyLower f.content) "pyspark"
      || strContains (pyLower f.content) "spark" then
    PySparkAnalyzer.analyzeFile f.path f.content
  else []

/-- The SQL flows contributed by one Python file: the SQL lexical pass
runs on every Python file. -/
def pyFileSqlFlows (f : PyFile) : List SQLDataFlow :=
  SQLAnalyzer.analyzeContent f.content

/-- Matcher piece: the lazy tail of the shell SQL-statement patterns up
to the first semicolon, MULTILINE end of line or end of text, with the
count of characters the terminator itself consumes. -/
def sqlTail : List Char → Nat × Nat
  | [] => (0, 0)
  | c :: cs =>
    if c == ';' then (0, 1)
    else if c == '\n' then (0, 0)
    else
      let (t, e) := sqlTail cs
      (t + 1, e)

/-- One token of a standalone SQL statement head: a case-insensitive
keyword or a table word; tokens are separated by whitespace. -/
inductive SqlTok where
  | kw (k : List Char)
  | word

/-- Match a whitespace-separated token sequence, returning the consumed
length. -/
def seqMatch : List SqlTok → List Char → Option Nat
  | [], _ => some 0
  | tok :: rest, s =>
    let first : Option Nat := match tok with
      | .kw k => if isPreCI k s then some k.length else none
      | .word => let r := wordRun s; if r == 0 then none else some r
    match first with
    | none => none
    | some n =>
      match rest with
      | [] => some n
      | _ :: _ =>
        let w := wsRun (s.drop n)
        if w == 0 then none
        else
          match seqMatch rest (s.drop (n + w)) with
          | some m => some (n + w + m)
          | none => none

/-- Matcher for a statement head followed by the lazy tail, the whole
matched statement text as the capture. -/
def stmtMatcher (toks : List SqlTok) (_ : Option Char) (s : List Char) :
    Option (String × Nat) :=
  match seqMatch toks s with
  | none => none
  | some m =>
    let (t, e) := sqlTail (s.drop m)
    some (String.mk (s.take (m + t)), m + t + e)

/-- The lazy middle of the standalone SELECT pattern: the smallest FROM
position whose full continuation (whitespace then a table word) matches,
at least one middle character after at least one whitespace character. -/
def selectFromScan (u : List Char) : Nat → Nat → Option Nat
  | _, 0 => none
  | j, fuel + 1 =>
    if j + 4 > u.length then none
    else
      let prevWs := match u.get? (j - 1) with
        | some c => isPySpace c
        | none => false
      if prevWs && isPreCI [ 'F', 'R', 'O', 'M'] (u.drop j) then
        let w := wsRun (u.drop (j + 4))
        if w == 0 then selectFromScan u (j + 1) fuel
        else
          let r := wordRun (u.drop (j + 4 + w))
          if r == 0 then selectFromScan u (j + 1) fuel
          else some (j + 4 + w + r)
      else selectFromScan u (j + 1) fuel

/-- Matcher for the standalone SELECT statement pattern. -/
def selectStmtMatcher (_ : Option Char) (s : List Char) : Option (String × Nat) :=
  if isPreCI [ 'S', 'E', 'L', 'E', 'C', 'T'] s then
    let u := s.drop 6
    match u with
    | c :: _ =>
      if isPySpace c then
        match selectFromScan u 3 (u.length + 1) with
        | some k =>
          let m := 6 + k
          let (t, e) := sqlTail (s.drop m)
          some (String.mk (s.take (m + t)), m + t + e)
        | none => none
      else none
    | [] => none
  else none

/-- The five standalone SQL statement scans of _analyze_shell_files, in
source order, filtered to stripped texts longer than ten characters. -/
def shellSqlStatements (filePath content : String) : List SqlStatement :=
  let getTxt := fun (r : String × Nat × Nat) => r.1
  let insertToks : List SqlTok :=
    [.kw [ 'I', 'N', 'S', 'E', 'R', 'T'], .kw [ 'I', 'N', 'T', 'O'], .word]
  let updateToks : List SqlTok :=
    [.kw [ 'U', 'P', 'D', 'A', 'T', 'E'], .word, .kw [ 'S', 'E', 'T']]
  let deleteToks : List SqlTok :=
    [.kw [ 'D', 'E', 'L', 'E', 'T', 'E'], .kw [ 'F', 'R', 'O', 'M'], .word]
  let createToks : List SqlTok :=
    [.kw [ 'C', 'R', 'E', 'A', 'T', 'E'], .kw [ 'T', 'A', 'B', 'L', 'E'],
     .word]
  let texts :=
    ((finditer selectStmtMatcher content).map getTxt)
    ++ ((finditer (stmtMatcher insertToks) content).map getTxt)
    ++ ((finditer (stmtMatcher updateToks) content).map getTxt)
    ++ ((finditer (stmtMatcher deleteToks) content).map getTxt)
    ++ ((finditer (stmtMatcher createToks) content).map getTxt)
  ((texts.map pyStrip).filter (fun t => t.length > 10)).map
    (fun t => SqlStatement.mk t filePath)

/-!
The per-bucket passes of analyze.  Each pass appends its records file by
file; the contribution of a pass to one record collection is the
concatenation of the per-file contributions, in bucket order.
-/

/-- _analyze_python_files contribution to self.classes. -/
def pyPassClasses (files : List PyFile) : List ClassInfo :=
  files.flatMap pyFileClasses

/-- _analyze_python_files contribution to self.functions. -/
def pyPassFunctions (ord : List String → List String) (files : List PyFile) :
    List FunctionInfo :=
  files.flatMap (fun f => (pyFileFunctionsRaw f).map (ShellAnalyzer.applyOrd ord))

/-- _analyze_python_files contribution to self.data_flows. -/
def pyPassDataFlows (files : List PyFile) : List DataFlowNode :=
  files.flatMap pyFileDataFlows

/-- _analyze_python_files contribution to self.sql_flows. -/
def pyPassSqlFlows (files : List PyFile) : List SQLDataFlow :=
  files.flatMap pyFileSqlFlows

/-- _analyze_sql_files contribution to self.sql_flows. -/
def sqlPassFlows (files : List SrcFile) : List SQLDataFlow :=
  files.flatMap (fun f => SQLAnalyzer.analyzeContent f.content)

/-- _analyze_sql_files contribution to self.sql_statements: each SQL file
verbatim. -/
def sqlPassStatements (files : List SrcFile) : List SqlStatement :=
  files.map (fun f => SqlStatement.mk f.content f.path)

/-- _analyze_shell_files contribution to self.functions. -/
def shellPassFunctions (ord : List String → List String)
    (files : List SrcFile) : List FunctionInfo :=
  files.flatMap (fun f =>
    (ShellAnalyzer.functionsRaw f.path f.content).map
      (ShellAnalyzer.applyOrdCap ord))

/-- _analyze_shell_files contribution to self.data_flows. -/
def shellPassDataFlows (files : List SrcFile) : List DataFlowNode :=
  files.flatMap (fun f => ShellAnalyzer.dataFlowsOf f.path f.content)

/-- _analyze_shell_files contribution to self.sql_statements. -/
def shellPassStatements (files : List SrcFile) : List SqlStatement :=
  files.flatMap (fun f => shellSqlStatements f.path f.content)

/-- _analyze_shell_files contribution to self.sql_flows: the SQL lexical
pass runs on every shell file too. -/
def shellPassSqlFlows (files : List SrcFile) : List SQLDataFlow :=
  files.flatMap (fun f => SQLAnalyzer.analyzeContent f.content)

/-- _analyze_batch_files contribution to self.functions. -/
def batchPassFunctions (ord : List String → List String)
    (files : List SrcFile) : List FunctionInfo :=
  files.flatMap (fun f =>
    (BatchAnalyzer.functionsRaw f.path f.content).map
      (ShellAnalyzer.applyOrd ord))

/-- _analyze_batch_files contribution to self.data_flows. -/
def batchPassDataFlows (files : List SrcFile) : List DataFlowNode :=
  files.flatMap (fun f => BatchAnalyzer.dataFlowsOf f.path f.content)

/-- _analyze_java_files contribution to self.classes. -/
def javaPassClasses (files : List SrcFile) : List ClassInfo :=
  files.flatMap (fun f =>
    ((JavaAnalyzer.classRecordsRaw f.path f.content).map (fun p => p.1))
      ++ JavaAnalyzer.interfaceRecords f.path f.content)

/-- _analyze_java_files contribution to self.functions. -/
def javaPassFunctions (ord : List String → List String)
    (files : List SrcFile) : List FunctionInfo :=
  files.flatMap (fun f =>
    ((JavaAnalyzer.classRecordsRaw f.path f.content).flatMap (fun p => p.2)).map
      (ShellAnalyzer.applyOrdCap ord))

/-- _analyze_java_files contribution to self.data_flows. -/
def javaPassDataFlows (files : List SrcFile) : List DataFlowNode :=
  files.flatMap (fun f => JavaAnalyzer.dataFlowsOf f.path f.content)

/-- _analyze_java_files contribution to self.sql_flows: the SQL lexical
pass runs on every Java file too. -/
def javaPassSqlFlows (files : List SrcFile) : List SQLDataFlow :=
  files.flatMap (fun f => SQLAnalyzer.analyzeContent f.content)

/--
Method analyze of ProjectAnalyzer on an instance state: _discover_files
appends the repository to the file buckets without resetting them, then
the five passes run over the full accumulated buckets in fixed order
(python, sql, shell, batch, java), appending to the shared collections.
-/
def analyze (ord : List String → List String) (repo : Repo)
    (s : AnalyzerState) : AnalyzerState :=
  let pf := s.python_files ++ repo.python
  let qf := s.sql_files ++ repo.sql
  let hf := s.shell_files ++ repo.shell
  let bf := s.batch_files ++ repo.batch
  let jf := s.java_files ++ repo.java
  { python_files := pf
    sql_files := qf
    shell_files := hf
    batch_files := bf
    java_files := jf
    classes := s.classes ++ pyPassClasses pf ++ javaPassClasses jf
    functions := s.functions ++ pyPassFunctions ord pf
      ++ shellPassFunctions ord hf ++ batchPassFunctions ord bf
      ++ javaPassFunctions ord jf
    data_flows := s.data_flows ++ pyPassDataFlows pf ++ shellPassDataFlows hf
      ++ batchPassDataFlows bf ++ javaPassDataFlows jf
    sql_flows := s.sql_flows ++ pyPassSqlFlows pf ++ sqlPassFlows qf
      ++ shellPassSqlFlows hf ++ javaPassSqlFlows jf
    sql_statements := s.sql_statements ++ sqlPassStatements qf
      ++ shellPassStatements hf }

/-- The summary dictionary returned by analyze. -/
structure Summary where
  total_python_files : Nat
  total_sql_files : Nat
  total_shell_files : Nat
  total_batch_files : Nat
  total_java_files : Nat
  total_classes : Nat
  total_functions : Nat
  total_data_flows : Nat
  total_sql_flows : Nat
  deriving DecidableEq, Repr

/-- The summary counts of a state. -/
def summaryOf (s : AnalyzerState) : Summary :=
  { total_python_files := s.python_files.length
    total_sql_files := s.sql_files.length
    total_shell_files := s.shell_files.length
    total_batch_files := s.batch_files.length
    total_java_files := s.java_files.length
    total_classes := s.classes.length
    total_functions := s.functions.length
    total_data_flows := s.data_flows.length
    total_sql_flows := s.sql_flows.length }

/-- A node of the class diagram. -/
structure ClassNode where
  id : String
  label : String
  node_type : String
  methods : List String
  attributes : List String
  file : String
  deriving DecidableEq, Repr

/-- An edge of any of the three diagrams. -/
structure GraphEdge where
  src : String
  dst : String
  edge_type : String
  deriving DecidableEq, Repr

/-- Method generate_class_diagram_data, as the fold its loop performs. -/
def classDiagram : List ClassInfo → List ClassNode × List GraphEdge
  | [] => ([], [])
  | cls :: rest =>
    let (ns, es) := classDiagram rest
    (ClassNode.mk cls.name cls.name "class" (cls.methods.take 10)
        (cls.attributes.take 10) (basename cls.file_path) :: ns,
     (cls.base_classes.map (fun b => GraphEdge.mk cls.name b "inheritance"))
       ++ es)

/-- A node of the function call graph. -/
structure FuncNode where
  id : String
  label : String
  node_type : String
  class_name : Option String
  file : String
  deriving DecidableEq, Repr

/-- The node id of generate_function_call_graph: the Python truthiness
test on class_name treats None and the empty string alike. -/
def funcNodeId (f : FunctionInfo) : String :=
  match f.class_name with
  | some c => if c != "" then c ++ "." ++ f.name else f.name
  | none => f.name

/-- The loop of generate_function_call_graph over a seen-id set. -/
def callGraphAux (seen : List String) :
    List FunctionInfo → List FuncNode × List GraphEdge
  | [] => ([], [])
  | f :: rest =>
    let fid := funcNodeId f
    let mkNode := !seen.contains fid
    let (ns, es) := callGraphAux (if mkNode then fid :: seen else seen) rest
    ((if mkNode then
        [FuncNode.mk fid f.name (if f.is_method then "method" else "function")
          f.class_name (basename f.file_path)]
      else []) ++ ns,
     (f.calls.map (fun c => GraphEdge.mk fid c "calls")) ++ es)

/-- Method generate_function_call_graph. -/
def callGraph (funcs : List FunctionInfo) : List FuncNode × List GraphEdge :=
  callGraphAux [] funcs

end ProjectAnalyzer

/-!
## Helper definitions and lemmas for the claims
-/

/-- A canonical admissible set-listing: first occurrences survive. -/
def dedupOrder : List String → List String := fun xs => xs.dedup

/-- A second admissible set-listing with the opposite order. -/
def dedupRevOrder : List String → List String := fun xs => xs.dedup.reverse

/-- Erase the callee list of a function record, keeping everything else. -/
def eraseCalls (f : FunctionInfo) : FunctionInfo := { f with calls := [] }

theorem eraseCalls_applyOrd (ord : List String → List String)
    (f : FunctionInfo) :
    eraseCalls (ShellAnalyzer.applyOrd ord f) = eraseCalls f := rfl

theorem eraseCalls_applyOrdCap (ord : List String → List String)
    (f : FunctionInfo) :
    eraseCalls (ShellAnalyzer.applyOrdCap ord f) = eraseCalls f := rfl

theorem map_eraseCalls_map_applyOrd (ord : List String → List String)
    (l : List FunctionInfo) :
    ((l.map (ShellAnalyzer.applyOrd ord)).map eraseCalls) = l.map eraseCalls := by
  induction l with
  | nil => rfl
  | cons f t ih => simp [ih, eraseCalls_applyOrd]

theorem map_eraseCalls_map_applyOrdCap (ord : List String → List String)
    (l : List FunctionInfo) :
    ((l.map (ShellAnalyzer.applyOrdCap ord)).map eraseCalls)
      = l.map eraseCalls := by
  induction l with
  | nil => rfl
  | cons f t ih => simp [ih, eraseCalls_applyOrdCap]

theorem pyPassFunctions_eraseCalls (ord : List String → List String)
    (fs : List PyFile) :
    (ProjectAnalyzer.pyPassFunctions ord fs).map eraseCalls
      = (fs.flatMap ProjectAnalyzer.pyFileFunctionsRaw).map eraseCalls := by
  induction fs with
  | nil => rfl
  | cons f t ih =>
    simp only [ProjectAnalyzer.pyPassFunctions, List.flatMap_cons,
      List.map_append] at ih ⊢
    rw [map_eraseCalls_map_applyOrd, ih]

theorem shellPassFunctions_eraseCalls (ord : List String → List String)
    (fs : List SrcFile) :
    (ProjectAnalyzer.shellPassFunctions ord fs).map eraseCalls
      = (fs.flatMap (fun f => ShellAnalyzer.functionsRaw f.path f.content)).map
          eraseCalls := by
  induction fs with
  | nil => rfl
  | cons f t ih =>
    simp only [ProjectAnalyzer.shellPassFunctions, List.flatMap_cons,
      List.map_append] at ih ⊢
    rw [map_eraseCalls_map_applyOrdCap, ih]

theorem batchPassFunctions_eraseCalls (ord : List String → List String)
    (fs : List SrcFile) :
    (ProjectAnalyzer.batchPassFunctions ord fs).map eraseCalls
      = (fs.flatMap (fun f => BatchAnalyzer.functionsRaw f.path f.content)).map
          eraseCalls := by
  induction fs with
  | nil => rfl
  | cons f t ih =>
    simp only [ProjectAnalyzer.batchPassFunctions, List.flatMap_cons,
      List.map_append] at ih ⊢
    rw [map_eraseCalls_map_applyOrd, ih]

theorem javaPassFunctions_eraseCalls (ord : List String → List String)
    (fs : List SrcFile) :
    (ProjectAnalyzer.javaPassFunctions ord fs).map eraseCalls
      = (fs.flatMap (fun f =>
          (JavaAnalyzer.classRecordsRaw f.path f.content).flatMap
            (fun p => p.2))).map eraseCalls := by
  induction fs with
  | nil => rfl
  | cons f t ih =>
    simp only [ProjectAnalyzer.javaPassFunctions, List.flatMap_cons,
      List.map_append] at ih ⊢
    rw [map_eraseCalls_map_applyOrdCap, ih]

namespace Claims

open ProjectAnalyzer SQLAnalyzer

/--
Claim C1, counterexample.  The statement INSERT INTO t SELECT a FROM s
contains both INSERT INTO and SELECT, yet _parse_sql routes it to the
SELECT parser: the produced flow is the _parse_select flow, its
operation is SELECT and it differs from the _parse_insert flow, so the
claim that routing picks the INSERT parser (operation INSERT) is false.
-/
theorem c1_counterexample :
    strContains (pyUpper "INSERT INTO t SELECT a FROM s") "INSERT INTO" = true
    ∧ strContains (pyUpper "INSERT INTO t SELECT a FROM s") "SELECT" = true
    ∧ parseSql "INSERT INTO t SELECT a FROM s"
        = some (parseSelect "INSERT INTO t SELECT a FROM s")
    ∧ (parseSql "INSERT INTO t SELECT a FROM s").map SQLDataFlow.operation
        = some "SELECT"
    ∧ parseSql "INSERT INTO t SELECT a FROM s"
        ≠ some (parseInsert "INSERT INTO t SELECT a FROM s") := by
  refine ⟨by decide, by decide, by decide, by decide, by decide⟩

/--
Claim C1, amended.  For every accepted SQL text containing both INSERT
INTO and SELECT (uppercased), _parse_sql routes the text to the SELECT
parser, because the SELECT branch is tested first; the produced flow is
the _parse_select flow, whose operation is SELECT, whose source tables
come from the FROM and JOIN scans and whose target table is the INTO
capture.
-/
theorem c1_amended_routing (sql : String)
    (_h1 : strContains (pyUpper sql) "INSERT INTO" = true)
    (h2 : strContains (pyUpper sql) "SELECT" = true) :
    parseSql sql = some (parseSelect sql)
    ∧ (parseSelect sql).operation = "SELECT"
    ∧ (parseSelect sql).source_tables
        = ((finditer fromMatcher sql).map
            (fun r => SQLTable.mk r.1.1 r.1.2 [] "table"))
          ++ ((finditer joinMatcher sql).map
            (fun r => SQLTable.mk r.1.1 r.1.2 [] "table"))
    ∧ (parseSelect sql).target_table = research intoMatcher sql := by
  refine ⟨?_, rfl, ?_, rfl⟩
  · simp [parseSql, h2]
  · simp [parseSelect, List.map_map, Function.comp]

/-- Witness for the amended claim C1 at its counterexample input. -/
theorem c1_amended_routing_witness :
    parseSql "INSERT INTO t SELECT a FROM s"
      = some (parseSelect "INSERT INTO t SELECT a FROM s")
    ∧ (parseSelect "INSERT INTO t SELECT a FROM s").operation = "SELECT" :=
  ⟨(c1_amended_routing "INSERT INTO t SELECT a FROM s"
      (by decide) (by decide)).1,
   (c1_amended_routing "INSERT INTO t SELECT a FROM s"
      (by decide) (by decide)).2.1⟩

/--
Claim C6.  The class-diagram builder emits one node per class record in
record order, with the record name as the node id: the node list has
exactly the length of the record list and its ids are the record names
positionally, so two same-named class records from different files give
two separate nodes rather than one merged node.
-/
theorem c6_class_nodes_per_record (classes : List ClassInfo) :
    ((classDiagram classes).1.map ClassNode.id)
      = classes.map ClassInfo.name
    ∧ (classDiagram classes).1.length = classes.length := by
  have h : ((classDiagram classes).1.map ClassNode.id)
      = classes.map ClassInfo.name := by
    induction classes with
    | nil => rfl
    | cons c t ih => simpa [classDiagram] using ih
  refine ⟨h, ?_⟩
  have := congrArg List.length h
  simpa using this

/--
Claim C8.  On the shell file consisting of the single line
cat in.txt | grep x > out.txt, analyze_file emits no function records
and exactly two data-flow nodes: one file_output node whose outputs list
is out.txt and one pipe node; in particular no file_input node is
emitted, whatever set-iteration order a run uses.
-/
theorem c8_shell_line_nodes (ord : List String → List String) :
    ShellAnalyzer.analyzeFile ord "test.sh" "cat in.txt | grep x > out.txt"
      = ([],
         [DataFlowNode.mk "file_write_1" "file_output" "test.sh" 1 []
            ["out.txt"] ["write"],
          DataFlowNode.mk "pipe_1" "pipe" "test.sh" 1 [] [] ["pipe"]]) := by
  rfl

/--
Claim C9.  Whenever the uppercased input passes the keyword heuristic
_is_sql, _extract_sql_blocks appends the entire input text as one final
additional block after the three scans, whatever the input's language;
consequently a file whose triple-quoted string is its only SQL is parsed
twice, as the concrete second conjunct shows: the Python-style file
body yields exactly two identical SELECT flows.
-/
theorem c9_whole_text_block :
    (∀ content : String, isSql content = true →
      extractSqlBlocks content = extractSqlBlocksScan content ++ [content])
    ∧ (∃ f : SQLDataFlow,
        analyzeContent "x = \"\"\"SELECT a FROM t1\"\"\"" = [f, f]) := by
  constructor
  · intro content h
    have hne : content ≠ "" := by
      intro he
      rw [he] at h
      exact absurd h (by decide)
    simp [extractSqlBlocks, h, hne]
  · exact ⟨parseSelect "SELECT a FROM t1", by decide⟩

/-- Witness for claim C9: its heuristic hypothesis holds at a concrete
triple-quoted Python body, on which the block list ends in the body. -/
theorem c9_whole_text_block_witness :
    extractSqlBlocks "x = \"\"\"SELECT a FROM t1\"\"\""
      = extractSqlBlocksScan "x = \"\"\"SELECT a FROM t1\"\"\""
        ++ ["x = \"\"\"SELECT a FROM t1\"\"\""] :=
  c9_whole_text_block.1 "x = \"\"\"SELECT a FROM t1\"\"\"" (by decide)

/--
Claim C2, counterexample.  The python file body
def f(: followed by a triple-quoted SELECT is rejected by ast.parse (the
parse outcome is none), yet an aggregator run over just this file still
produces two SQL flows, because the inner try of _analyze_python_files
only guards the syntax-tree walk and the SQL lexical pass still runs; so
the claim that such a file contributes no SQL flows is false.
-/
theorem c2_counterexample :
    (analyze dedupOrder
        { python := [⟨"bad.py", "def f(:\n\"\"\"SELECT a FROM t1\"\"\"", none⟩] }
        emptyState).classes = []
    ∧ (analyze dedupOrder
        { python := [⟨"bad.py", "def f(:\n\"\"\"SELECT a FROM t1\"\"\"", none⟩] }
        emptyState).functions = []
    ∧ ((analyze dedupOrder
        { python := [⟨"bad.py", "def f(:\n\"\"\"SELECT a FROM t1\"\"\"", none⟩] }
        emptyState).sql_flows).length = 2 := by
  refine ⟨by decide, by decide, by decide⟩

/--
Claim C2, amended.  A Python file whose text fails to parse contributes
zero class records and zero function records while the run continues,
but the file still goes through the PySpark heuristic and the SQL
lexical pass, so its data-flow nodes are those of the PySpark pass and
its SQL flows are exactly analyze_content of its text, which can be
non-empty.
-/
theorem c2_syntax_error_contribution (ord : List String → List String)
    (path content : String) :
    (analyze ord { python := [⟨path, content, none⟩] } emptyState).classes = []
    ∧ (analyze ord { python := [⟨path, content, none⟩] } emptyState).functions
        = []
    ∧ (analyze ord { python := [⟨path, content, none⟩] } emptyState).sql_flows
        = analyzeContent content
    ∧ (analyze ord { python := [⟨path, content, none⟩] } emptyState).data_flows
        = pyFileDataFlows ⟨path, content, none⟩ := by
  refine ⟨?_, ?_, ?_, ?_⟩ <;>
    simp [analyze, emptyState, pyPassClasses, pyPassFunctions, pyPassDataFlows,
      pyPassSqlFlows, pyFileClasses, pyFileFunctionsRaw, pyFileSqlFlows,
      sqlPassFlows, shellPassSqlFlows, javaPassSqlFlows, sqlPassStatements,
      shellPassFunctions, batchPassFunctions, javaPassFunctions,
      shellPassDataFlows, batchPassDataFlows, javaPassDataFlows,
      javaPassClasses, shellPassStatements]

/--
Claim C3, counterexample.  A batch file whose whole text is the
extractable statement SELECT a FROM t1; contributes no SQL flows to an
aggregator run, although the SQL analyzer extracts a flow from that very
text: _analyze_batch_files never invokes the SQL lexical pass, so the
claim that every language bucket is SQL-analyzed is false.
-/
theorem c3_counterexample :
    (analyze dedupOrder { batch := [⟨"x.bat", "SELECT a FROM t1;"⟩] }
        emptyState).sql_flows = []
    ∧ analyzeContent "SELECT a FROM t1;" ≠ [] := by
  refine ⟨by decide, by decide⟩

/--
Claim C3, amended.  The SQL lexical pass is applied to the python, sql,
shell and java buckets, whose per-file flows all reach the aggregate,
but not to the batch bucket: a batch-only repository contributes no SQL
flows at all.
-/
theorem c3_sql_pass_buckets (ord : List String → List String)
    (ps : List PyFile) (qs hs bs js : List SrcFile) :
    (analyze ord { batch := bs } emptyState).sql_flows = []
    ∧ (analyze ord { python := ps } emptyState).sql_flows
        = ps.flatMap (fun f => analyzeContent f.content)
    ∧ (analyze ord { sql := qs } emptyState).sql_flows
        = qs.flatMap (fun f => analyzeContent f.content)
    ∧ (analyze ord { shell := hs } emptyState).sql_flows
        = hs.flatMap (fun f => analyzeContent f.content)
    ∧ (analyze ord { java := js } emptyState).sql_flows
        = js.flatMap (fun f => analyzeContent f.content) := by
  refine ⟨?_, ?_, ?_, ?_, ?_⟩ <;>
    first
    | (simp [analyze, emptyState, pyPassSqlFlows, sqlPassFlows,
        shellPassSqlFlows, javaPassSqlFlows, pyFileSqlFlows]; done)
    | (simp [analyze, emptyState, pyPassSqlFlows, sqlPassFlows,
        shellPassSqlFlows, javaPassSqlFlows]; rfl)

set_option maxRecDepth 40000 in
/--
Claim C4, counterexample.  A batch file with twenty-one distinct call
targets yields a label record whose callee list has twenty-one entries:
_find_goto_calls deduplicates but never caps at twenty, so the claim
that every lexical analyzer caps callee lists at twenty is false for
the batch analyzer.
-/
theorem c4_counterexample :
    (BatchAnalyzer.findGotoCalls dedupOrder
      (":run\ncall :t1\ncall :t2\ncall :t3\ncall :t4\ncall :t5\ncall :t6\ncall :t7\ncall :t8\ncall :t9\ncall :t10\ncall :t11\ncall :t12\ncall :t13\ncall :t14\ncall :t15\ncall :t16\ncall :t17\ncall :t18\ncall :t19\ncall :t20\ncall :t21\n")).length
      = 21
    ∧ ((BatchAnalyzer.functionsOf dedupOrder "x.bat"
      (":run\ncall :t1\ncall :t2\ncall :t3\ncall :t4\ncall :t5\ncall :t6\ncall :t7\ncall :t8\ncall :t9\ncall :t10\ncall :t11\ncall :t12\ncall :t13\ncall :t14\ncall :t15\ncall :t16\ncall :t17\ncall :t18\ncall :t19\ncall :t20\ncall :t21\n")).map
        (fun f => f.calls.length)) = [21] := by
  refine ⟨by decide, by decide⟩

/--
Claim C4, amended.  For every admissible set-iteration order, the shell
and Java lexical analyzers produce deduplicated callee lists of at most
twenty entries, while the batch analyzer produces deduplicated but
uncapped callee lists.
-/
theorem c4_dedup_and_cap (ord : List String → List String)
    (h : SetListOrder ord) (content funcName methodName : String) :
    (ShellAnalyzer.findFunctionCalls ord content funcName).length ≤ 20
    ∧ (ShellAnalyzer.findFunctionCalls ord content funcName).Nodup
    ∧ (JavaAnalyzer.findMethodCalls ord content methodName).length ≤ 20
    ∧ (JavaAnalyzer.findMethodCalls ord content methodName).Nodup
    ∧ (BatchAnalyzer.findGotoCalls ord content).Nodup := by
  refine ⟨?_, ?_, ?_, ?_, ?_⟩
  · exact List.length_take_le 20
      (ord (ShellAnalyzer.findFunctionCallsRaw content funcName))
  · exact List.Nodup.sublist (List.take_sublist _ _)
      (h (ShellAnalyzer.findFunctionCallsRaw content funcName)).1
  · exact List.length_take_le 20
      (ord (JavaAnalyzer.findMethodCallsRaw content methodName))
  · exact List.Nodup.sublist (List.take_sublist _ _)
      (h (JavaAnalyzer.findMethodCallsRaw content methodName)).1
  · exact (h (BatchAnalyzer.findGotoCallsRaw content)).1

/-- Witness for the amended claim C4 at the first-occurrence order and a
concrete shell script. -/
theorem c4_dedup_and_cap_witness :
    SetListOrder dedupOrder
    ∧ (ShellAnalyzer.findFunctionCalls dedupOrder "f()\naa bb\n" "f").length
        ≤ 20
    ∧ (BatchAnalyzer.findGotoCalls dedupOrder "call :a\n").Nodup :=
  ⟨setListOrder_dedup,
   (c4_dedup_and_cap dedupOrder setListOrder_dedup "f()\naa bb\n" "f" "m").1,
   (c4_dedup_and_cap dedupOrder setListOrder_dedup "call :a\n" "f"
      "m").2.2.2.2⟩

/--
Claim C5, counterexample.  Over the one-file shell repository with the
body f() and the two call-like lines aa bb and cc dd, two admissible
set-iteration orders (two hash seeds of CPython) give two runs whose
function records differ in the order of the callee list of f; so the
claim that two runs over the same tree produce identical function
records, including the order and content of each callee list, is false
even with the discovery order fixed.
-/
theorem c5_counterexample :
    SetListOrder dedupOrder
    ∧ SetListOrder dedupRevOrder
    ∧ (analyze dedupOrder { shell := [⟨"a.sh", "f()\naa bb\ncc dd\n"⟩] }
          emptyState).functions
        ≠ (analyze dedupRevOrder { shell := [⟨"a.sh", "f()\naa bb\ncc dd\n"⟩] }
          emptyState).functions := by
  refine ⟨setListOrder_dedup, setListOrder_dedup_reverse, by decide⟩

/--
Claim C5, amended.  Given a fixed discovery order, the only data that
may vary between two runs is the callee list of each function record,
through the hash-dependent list(set(...)) listing: for any two
set-iteration orders the two runs agree on the class records, the
data-flow nodes, the SQL flows, the raw SQL statements, the function
records with callee lists erased, and all summary counts; fixing the
set-iteration order as well makes the runs fully identical.
-/
theorem c5_determinism_mod_callees (ord1 ord2 : List String → List String)
    (repo : Repo) :
    (analyze ord1 repo emptyState).classes
        = (analyze ord2 repo emptyState).classes
    ∧ (analyze ord1 repo emptyState).data_flows
        = (analyze ord2 repo emptyState).data_flows
    ∧ (analyze ord1 repo emptyState).sql_flows
        = (analyze ord2 repo emptyState).sql_flows
    ∧ (analyze ord1 repo emptyState).sql_statements
        = (analyze ord2 repo emptyState).sql_statements
    ∧ ((analyze ord1 repo emptyState).functions).map eraseCalls
        = ((analyze ord2 repo emptyState).functions).map eraseCalls
    ∧ summaryOf (analyze ord1 repo emptyState)
        = summaryOf (analyze ord2 repo emptyState) := by
  have hfun : ((analyze ord1 repo emptyState).functions).map eraseCalls
      = ((analyze ord2 repo emptyState).functions).map eraseCalls := by
    simp only [analyze, emptyState, List.map_append,
      pyPassFunctions_eraseCalls, shellPassFunctions_eraseCalls,
      batchPassFunctions_eraseCalls, javaPassFunctions_eraseCalls]
  have hlen : ((analyze ord1 repo emptyState).functions).length
      = ((analyze ord2 repo emptyState).functions).length := by
    have := congrArg List.length hfun
    simpa using this
  refine ⟨rfl, rfl, rfl, rfl, hfun, ?_⟩
  simp only [summaryOf, Summary.mk.injEq]
  exact ⟨rfl, rfl, rfl, rfl, rfl, rfl, hlen, rfl, rfl⟩

end Claims

/--
Invariant of the call-graph loop: the emitted node ids avoid the seen
set, are duplicate-free, and every processed function record has its id
either in the seen set or among the emitted ids.
-/
theorem callGraphAux_ids (funcs : List FunctionInfo) : ∀ seen : List String,
    (∀ x ∈ ((ProjectAnalyzer.callGraphAux seen funcs).1.map
        ProjectAnalyzer.FuncNode.id), x ∉ seen)
    ∧ ((ProjectAnalyzer.callGraphAux seen funcs).1.map
        ProjectAnalyzer.FuncNode.id).Nodup
    ∧ (∀ f ∈ funcs, ProjectAnalyzer.funcNodeId f ∈ seen
        ∨ ProjectAnalyzer.funcNodeId f
            ∈ ((ProjectAnalyzer.callGraphAux seen funcs).1.map
              ProjectAnalyzer.FuncNode.id)) := by
  induction funcs with
  | nil =>
    intro seen
    exact ⟨by simp [ProjectAnalyzer.callGraphAux],
      by simp [ProjectAnalyzer.callGraphAux],
      by simp⟩
  | cons f rest ih =>
    intro seen
    by_cases h : seen.contains (ProjectAnalyzer.funcNodeId f) = true
    · have hmem : ProjectAnalyzer.funcNodeId f ∈ seen := List.elem_iff.mp h
      have hred : (ProjectAnalyzer.callGraphAux seen (f :: rest)).1
          = (ProjectAnalyzer.callGraphAux seen rest).1 := by
        simp [ProjectAnalyzer.callGraphAux, hmem]
      rw [hred]
      obtain ⟨ih1, ih2, ih3⟩ := ih seen
      refine ⟨ih1, ih2, ?_⟩
      intro g hg
      rcases List.mem_cons.mp hg with hgf | hgr
      · exact Or.inl (hgf ▸ hmem)
      · exact ih3 g hgr
    · have hnm : ProjectAnalyzer.funcNodeId f ∉ seen := by
        intro hx
        exact h (List.elem_iff.mpr hx)
      have hred : (ProjectAnalyzer.callGraphAux seen (f :: rest)).1
          = ProjectAnalyzer.FuncNode.mk (ProjectAnalyzer.funcNodeId f) f.name
              (if f.is_method then "method" else "function") f.class_name
              (basename f.file_path)
            :: (ProjectAnalyzer.callGraphAux
              (ProjectAnalyzer.funcNodeId f :: seen) rest).1 := by
        simp [ProjectAnalyzer.callGraphAux, hnm]
      rw [hred]
      obtain ⟨ih1, ih2, ih3⟩ := ih (ProjectAnalyzer.funcNodeId f :: seen)
      simp only [List.map_cons]
      refine ⟨?_, ?_, ?_⟩
      · intro x hx
        rcases List.mem_cons.mp hx with hxf | hxr
        · exact hxf ▸ hnm
        · intro hxs
          exact (ih1 x hxr) (List.mem_cons_of_mem _ hxs)
      · refine List.nodup_cons.mpr ⟨?_, ih2⟩
        intro hin
        exact (ih1 _ hin) (List.mem_cons_self _ _)
      · intro g hg
        rcases List.mem_cons.mp hg with hgf | hgr
        · subst hgf
          exact Or.inr (List.mem_cons_self _ _)
        · rcases ih3 g hgr with hseen | hids
          · rcases List.mem_cons.mp hseen with heq | hs
            · exact Or.inr (by rw [heq]; exact List.mem_cons_self _ _)
            · exact Or.inl hs
          · exact Or.inr (List.mem_cons_of_mem _ hids)

/-- Appending the same dotted suffix to two distinct class names yields
distinct call-graph ids. -/
theorem dot_append_inj (c1 c2 n : String)
    (h : c1 ++ "." ++ n = c2 ++ "." ++ n) : c1 = c2 := by
  have hd : c1.data ++ '.' :: n.data = c2.data ++ '.' :: n.data := by
    have := congrArg String.data h
    simpa [String.data_append] using this
  have : c1.data = c2.data := by
    have hlen : c1.data.length = c2.data.length := by
      have := congrArg List.length hd
      simpa using this
    exact List.append_inj_left hd (by simpa using hlen)
  exact congrArg String.mk this

namespace Claims

open ProjectAnalyzer

/--
Claim C7.  In the call graph, a function record with no class name gets
the bare function name as node id, so two same-named free functions from
different files share one id and, the emitted ids being duplicate-free
while every record's id is emitted, exactly one node carries that name;
two same-named methods on two different (non-empty-named) classes get
the distinct ids class.name, and both ids appear as nodes.
-/
theorem c7_call_graph_identity (funcs : List FunctionInfo)
    (f g : FunctionInfo) (hf : f ∈ funcs) (hg : g ∈ funcs) :
    (f.class_name = none → g.class_name = none → f.name = g.name →
      funcNodeId f = funcNodeId g
      ∧ ((callGraph funcs).1.map FuncNode.id).count f.name = 1)
    ∧ (∀ c1 c2 : String, f.class_name = some c1 → g.class_name = some c2 →
        c1 ≠ "" → c2 ≠ "" → c1 ≠ c2 → f.name = g.name →
      funcNodeId f ≠ funcNodeId g
      ∧ funcNodeId f ∈ ((callGraph funcs).1.map FuncNode.id)
      ∧ funcNodeId g ∈ ((callGraph funcs).1.map FuncNode.id)) := by
  obtain ⟨_, hnd, hmem⟩ := callGraphAux_ids funcs []
  constructor
  · intro hfc hgc hsame
    have hidf : funcNodeId f = f.name := by simp [funcNodeId, hfc]
    have hidg : funcNodeId g = g.name := by simp [funcNodeId, hgc]
    have hin : f.name ∈ ((callGraph funcs).1.map FuncNode.id) := by
      rcases hmem f hf with hfalse | hok
      · exact absurd hfalse (List.not_mem_nil _)
      · exact hidf ▸ hok
    exact ⟨by rw [hidf, hidg, hsame],
      List.count_eq_one_of_mem hnd hin⟩
  · intro c1 c2 hfc hgc hc1 hc2 hne hnames
    have hidf : funcNodeId f = c1 ++ "." ++ f.name := by
      simp [funcNodeId, hfc, hc1]
    have hidg : funcNodeId g = c2 ++ "." ++ g.name := by
      simp [funcNodeId, hgc, hc2]
    refine ⟨?_, ?_, ?_⟩
    · rw [hidf, hidg, hnames]
      intro hx
      exact hne (dot_append_inj c1 c2 g.name hx)
    · rcases hmem f hf with hfalse | hok
      · exact absurd hfalse (List.not_mem_nil _)
      · exact hok
    · rcases hmem g hg with hfalse | hok
      · exact absurd hfalse (List.not_mem_nil _)
      · exact hok

/-- Witness for claim C7: two same-named free functions from two files
collide on one node, while two same-named methods on classes A and B
keep two distinct node ids, over a concrete four-record state. -/
theorem c7_call_graph_identity_witness :
    (((callGraph
        [{ name := "helper", file_path := "a.py", line_number := 1 },
         { name := "helper", file_path := "b.py", line_number := 2 },
         { name := "run", file_path := "A.java", line_number := 3,
           is_method := true, class_name := some "A" },
         { name := "run", file_path := "B.java", line_number := 4,
           is_method := true, class_name := some "B" }]).1.map
      FuncNode.id).count "helper" = 1)
    ∧ funcNodeId { name := "run", file_path := "A.java", line_number := 3,
                   is_method := true, class_name := some "A" }
        ≠ funcNodeId { name := "run", file_path := "B.java", line_number := 4,
                       is_method := true, class_name := some "B" } := by
  refine ⟨?_, ?_⟩
  · exact ((c7_call_graph_identity
      [{ name := "helper", file_path := "a.py", line_number := 1 },
       { name := "helper", file_path := "b.py", line_number := 2 },
       { name := "run", file_path := "A.java", line_number := 3,
         is_method := true, class_name := some "A" },
       { name := "run", file_path := "B.java", line_number := 4,
         is_method := true, class_name := some "B" }]
      { name := "helper", file_path := "a.py", line_number := 1 }
      { name := "helper", file_path := "b.py", line_number := 2 }
      (by decide) (by decide)).1 rfl rfl rfl).2
  · exact ((c7_call_graph_identity
      [{ name := "helper", file_path := "a.py", line_number := 1 },
       { name := "helper", file_path := "b.py", line_number := 2 },
       { name := "run", file_path := "A.java", line_number := 3,
         is_method := true, class_name := some "A" },
       { name := "run", file_path := "B.java", line_number := 4,
         is_method := true, class_name := some "B" }]
      { name := "run", file_path := "A.java", line_number := 3,
        is_method := true, class_name := some "A" }
      { name := "run", file_path := "B.java", line_number := 4,
        is_method := true, class_name := some "B" }
      (by decide) (by decide)).2 "A" "B" rfl rfl (by decide) (by decide)
      (by decide) rfl).1

/--
Claim C10, counterexample.  Over a repository holding one SQL file whose
text is SELECT a FROM t1, the first analyze call reports one SQL flow,
and a second analyze call on the same instance reports three, not two:
the rediscovered file list is processed in full again on top of the
kept records, so summary counts do not simply double as claimed.
-/
theorem c10_counterexample :
    (summaryOf (analyze dedupOrder
        { sql := [⟨"q.sql", "SELECT a FROM t1"⟩] }
        emptyState)).total_sql_flows = 1
    ∧ (summaryOf (analyze dedupOrder
        { sql := [⟨"q.sql", "SELECT a FROM t1"⟩] }
        (analyze dedupOrder { sql := [⟨"q.sql", "SELECT a FROM t1"⟩] }
          emptyState))).total_sql_flows = 3
    ∧ (3 : Nat) ≠ 2 * 1 := by
  refine ⟨by decide, by decide, by decide⟩

/--
Claim C10, amended.  A second analyze call on the same instance resets
nothing: every file bucket grows by one more copy of the discovered
files, so the five file counts double, but the passes then re-run over
the doubled buckets on top of the kept records, so the record
collections (classes, functions, data flows, SQL flows, SQL statements)
triple rather than double.
-/
theorem c10_second_run_growth (ord : List String → List String) (repo : Repo) :
    ((analyze ord repo (analyze ord repo emptyState)).python_files).length
        = 2 * ((analyze ord repo emptyState).python_files).length
    ∧ ((analyze ord repo (analyze ord repo emptyState)).sql_files).length
        = 2 * ((analyze ord repo emptyState).sql_files).length
    ∧ ((analyze ord repo (analyze ord repo emptyState)).shell_files).length
        = 2 * ((analyze ord repo emptyState).shell_files).length
    ∧ ((analyze ord repo (analyze ord repo emptyState)).batch_files).length
        = 2 * ((analyze ord repo emptyState).batch_files).length
    ∧ ((analyze ord repo (analyze ord repo emptyState)).java_files).length
        = 2 * ((analyze ord repo emptyState).java_files).length
    ∧ ((analyze ord repo (analyze ord repo emptyState)).classes).length
        = 3 * ((analyze ord repo emptyState).classes).length
    ∧ ((analyze ord repo (analyze ord repo emptyState)).functions).length
        = 3 * ((analyze ord repo emptyState).functions).length
    ∧ ((analyze ord repo (analyze ord repo emptyState)).data_flows).length
        = 3 * ((analyze ord repo emptyState).data_flows).length
    ∧ ((analyze ord repo (analyze ord repo emptyState)).sql_flows).length
        = 3 * ((analyze ord repo emptyState).sql_flows).length
    ∧ ((analyze ord repo (analyze ord repo emptyState)).sql_statements).length
        = 3 * ((analyze ord repo emptyState).sql_statements).length := by
  refine ⟨?_, ?_, ?_, ?_, ?_, ?_, ?_, ?_, ?_, ?_⟩ <;>
    simp only [analyze, emptyState, List.nil_append, List.append_nil] <;>
    simp [pyPassClasses, javaPassClasses, pyPassFunctions, shellPassFunctions,
      batchPassFunctions, javaPassFunctions, pyPassDataFlows,
      shellPassDataFlows, batchPassDataFlows, javaPassDataFlows,
      pyPassSqlFlows, sqlPassFlows, shellPassSqlFlows, javaPassSqlFlows,
      sqlPassStatements, shellPassStatements, List.flatMap_append,
      List.length_append, List.length_map] <;>
    ring

end Claims

end ZA
